import Mathlib

/-!
# Parameter validation checks of `stan/maths/error_handling.hpp`

A shallow embedding of the `check_*` function templates and the properties of
their boolean result, of the diagnostic handed to the error policy and of the
caller-owned result slot.

Modelling conventions.

* A real-typed argument is a `Dbl`: NaN, the two infinities, or a finite value.
  Finite values are rationals; every finite `double` is one, and `<`, `<=`,
  `>`, `>=` on finite doubles agree with the order of the rationals (the two
  signed zeros are both `0`, and compare equal in C++ as well).
* `raise_domain_error` belongs to Boost. What it does is decided by the
  `Policy` template argument: it either returns a value (which the check
  stores through `result`) or throws. A `Policy` here is a function of the
  three run-time arguments of `raise_domain_error`.
* A check runs on a `St`: the content of `*result` together with the list of
  `raise_domain_error` calls made so far (ghost instrumentation), and yields an
  `Outcome` and the state afterwards.
* Undefined behaviour of the C++ source (reading element 0 of an empty
  container, building an exception text from a buffer that has been destroyed)
  is the outcome `fault`.
* The loop counters `int i` are natural numbers; this is exact for containers
  of at most `2^31 - 1` elements.
-/

namespace Stan

/-- Values of a real-typed (`double`) argument. -/
inductive Dbl where
  | nan : Dbl
  | ninf : Dbl
  | pinf : Dbl
  | fin (q : ℚ) : Dbl
  deriving DecidableEq

namespace Dbl

/-- The predicate `boost::math::isnan`. -/
def isnan : Dbl → Bool
  | nan => true
  | _ => false

/-- The predicate `boost::math::isfinite`. -/
def isfinite : Dbl → Bool
  | fin _ => true
  | _ => false

/-- The C++ comparison `a < b` on doubles (false as soon as one side is NaN). -/
def lt : Dbl → Dbl → Bool
  | nan, _ => false
  | _, nan => false
  | ninf, ninf => false
  | ninf, _ => true
  | _, ninf => false
  | pinf, _ => false
  | fin _, pinf => true
  | fin a, fin b => decide (a < b)

/-- The C++ comparison `a <= b` on doubles (false as soon as one side is NaN). -/
def le : Dbl → Dbl → Bool
  | nan, _ => false
  | _, nan => false
  | ninf, _ => true
  | _, ninf => false
  | _, pinf => true
  | pinf, fin _ => false
  | fin a, fin b => decide (a ≤ b)

/-- The C++ comparison `a > b`. -/
def gt (a b : Dbl) : Bool := lt b a

/-- The C++ comparison `a >= b`. -/
def ge (a b : Dbl) : Bool := le b a

/-- The `double` an `unsigned int` or an `int` literal converts to. -/
def ofNat (n : Nat) : Dbl := fin (n : ℚ)

end Dbl

/-- The arguments of one `raise_domain_error(function, message, val, Policy())` call. -/
structure Call where
  function : String
  message : String
  val : Dbl
  deriving DecidableEq

/-- What a policy makes of a domain error: a value to return, or an exception. -/
inductive PolicyAction where
  | returns (v : Dbl) : PolicyAction
  | throws : PolicyAction
  deriving DecidableEq

/-- An error policy: the behaviour of `raise_domain_error` under it. -/
abbrev Policy := String → String → Dbl → PolicyAction

/-- A record-and-continue policy: the domain error becomes the value `p function message val`. -/
def nonRaising (p : String → String → Dbl → Dbl) : Policy :=
  fun function message val => PolicyAction.returns (p function message val)

/-- The policy that always throws (Boost's `throw_on_error`). -/
def raising : Policy :=
  fun _ _ _ => PolicyAction.throws

/-- How a call of a check ends. -/
inductive Outcome where
  | ret (b : Bool) : Outcome
  | raised (e : Call) : Outcome
  | fault : Outcome
  deriving DecidableEq

/-- The caller-owned slot `*result` and the log of policy invocations. -/
structure St where
  slot : Dbl
  calls : List Call
  deriving DecidableEq

/-- The statements `*result = raise_domain_error<T>(function, msg, val, Policy()); return false;`
that end every failing branch. The invocation is logged; a returned value is stored in the slot,
an exception leaves the slot alone and propagates. -/
def domain_fail (pol : Policy) (function msg : String) (val : Dbl) (s : St) : Outcome × St :=
  match pol function msg val with
  | PolicyAction.returns r =>
      (Outcome.ret false, { slot := r, calls := s.calls ++ [⟨function, msg, val⟩] })
  | PolicyAction.throws =>
      (Outcome.raised ⟨function, msg, val⟩, { s with calls := s.calls ++ [⟨function, msg, val⟩] })

/-- Scalar `check_not_nan` (lines 26-41). -/
def check_not_nan (function : String) (y : Dbl) (name : String) (pol : Policy) (s : St) :
    Outcome × St :=
  if Dbl.isnan y then
    domain_fail pol function (name ++ " is %1%, but must not be nan!") y s
  else (Outcome.ret true, s)

/-- Scalar `check_finite` (lines 87-103). -/
def check_finite (function : String) (y : Dbl) (name : String) (pol : Policy) (s : St) :
    Outcome × St :=
  if !Dbl.isfinite y then
    domain_fail pol function (name ++ " is %1%, but must be finite!") y s
  else (Outcome.ret true, s)

/-- Generic `check_greater` (lines 146-165); `render` is `operator<<` of the bound's type. -/
def check_greater (render : Dbl → String) (function : String) (x low : Dbl) (name : String)
    (pol : Policy) (s : St) : Outcome × St :=
  if !Dbl.isfinite x || !Dbl.gt x low then
    domain_fail pol function
      (name ++ " is %1%, but must be finite and greater than " ++ render low) x s
  else (Outcome.ret true, s)

/-- Generic `check_bounded` (lines 168-192); `render` is `operator<<` of the bounds' type. -/
def check_bounded (render : Dbl → String) (function : String) (x low high : Dbl) (name : String)
    (pol : Policy) (s : St) : Outcome × St :=
  if !Dbl.isfinite x || !(Dbl.le low x && Dbl.le x high) then
    domain_fail pol function
      (name ++ " is %1%, but must be finite and between " ++ render low ++ " and " ++ render high)
      x s
  else (Outcome.ret true, s)

/-- Generic `check_positive` on a scalar (lines 278-295). -/
def check_positive (function : String) (x : Dbl) (name : String) (pol : Policy) (s : St) :
    Outcome × St :=
  if !Dbl.isfinite x || !Dbl.gt x (Dbl.ofNat 0) then
    domain_fail pol function (name ++ " is %1%, but must be finite and > 0!") x s
  else (Outcome.ret true, s)

/-- The loop shared by the sequence overloads,
`for (int i = i0; i < y.size(); i++) { if (bad(y[i])) { <onFail i y[i]> } } return true;`
where the failing branch ends the function. -/
def scan (y : List Dbl) (bad : Dbl → Bool) (onFail : Nat → Dbl → St → Outcome × St)
    (i : Nat) (s : St) : Outcome × St :=
  if h : i < y.length then
    if bad (y.get ⟨i, h⟩) then onFail i (y.get ⟨i, h⟩) s
    else scan y bad onFail (i + 1) s
  else (Outcome.ret true, s)
termination_by y.length - i

/-- The failing branch of the `std::vector` overload of `check_not_nan` (lines 52-56):
`const char* msg = msg_o.str().c_str();` followed by
`*result = raise_domain_error<T_y>(function, msg, y[i], Policy()); return false;`.
The `std::string` that `str()` returns is a temporary, destroyed at the end of the first
statement, so `msg` dangles when `raise_domain_error` receives it. `stale` is what a read through
`msg` finds; the arguments of the call do not fix it. A policy that returns a value is invoked
with `stale`, its value is stored and the check returns `false`: a policy that never looks at
its message (Boost's `errno_on_error` and `ignore_error`) returns the same value whatever `stale`
is. A policy that throws builds the text of its exception from the destroyed buffer, and the
call has no defined outcome. -/
def dangling_fail (pol : Policy) (function stale : String) (val : Dbl) (s : St) :
    Outcome × St :=
  match pol function stale val with
  | PolicyAction.returns r =>
      (Outcome.ret false, { slot := r, calls := s.calls ++ [⟨function, stale, val⟩] })
  | PolicyAction.throws => (Outcome.fault, s)

/-- The overload `check_not_nan(const std::vector<T_y>&)` (lines 43-60); `stale` is the content
found through the dangling message pointer of its failing branch. The text built from `name` and
`i` is destroyed before the policy is invoked and takes no part in the result. -/
def check_not_nan_vector (stale : String) (function : String) (y : List Dbl) (_name : String)
    (pol : Policy) (s : St) : Outcome × St :=
  scan y Dbl.isnan (fun _ v s1 => dangling_fail pol function stale v s1) 0 s

/-- The overload `check_not_nan(const EigenType<T_y>::vector&)` (lines 62-81). -/
def check_not_nan_eigen (function : String) (y : List Dbl) (name : String) (pol : Policy)
    (s : St) : Outcome × St :=
  scan y Dbl.isnan
    (fun i v s1 =>
      domain_fail pol function (name ++ "[" ++ toString i ++ "] is %1%, but must not be nan!") v s1)
    0 s

/-- The overload `check_finite(const std::vector<T_y>&)` (lines 105-123). -/
def check_finite_vector (function : String) (y : List Dbl) (name : String) (pol : Policy)
    (s : St) : Outcome × St :=
  scan y (fun v => !Dbl.isfinite v)
    (fun i v s1 =>
      domain_fail pol function (name ++ "[" ++ toString i ++ "] is %1%, but must be finite!") v s1)
    0 s

/-- The overload `check_finite(const EigenType<T_y>::vector&)` (lines 125-144). -/
def check_finite_eigen (function : String) (y : List Dbl) (name : String) (pol : Policy)
    (s : St) : Outcome × St :=
  scan y (fun v => !Dbl.isfinite v)
    (fun i v s1 =>
      domain_fail pol function (name ++ "[" ++ toString i ++ "] is %1%, but must be finite!") v s1)
    0 s

/-- The overload `check_positive(const std::vector<T_y>&)` (lines 297-315). -/
def check_positive_vector (function : String) (y : List Dbl) (name : String) (pol : Policy)
    (s : St) : Outcome × St :=
  scan y (fun v => !Dbl.isfinite v || !Dbl.gt v (Dbl.ofNat 0))
    (fun i v s1 =>
      domain_fail pol function
        (name ++ "[" ++ toString i ++ "] is %1%, but must be finite and > 0!") v s1)
    0 s

/-- A bound of the `unsigned int` overload of `check_bounded`: its template types `T_low` and
`T_high` may be a (32-bit) `int` or a real type. -/
inductive Num where
  | int (i : Int) : Num
  | real (d : Dbl) : Num
  deriving DecidableEq

/-- The value an `int` takes when the usual arithmetic conversions turn it into `unsigned int`. -/
def toUnsigned (i : Int) : Nat := (i % 2 ^ 32).toNat

/-- The comparison `low <= x` for `unsigned int x`: an `int` bound is converted to `unsigned int`,
against a real bound `x` is converted to `double`. -/
def Num.le_unsigned : Num → Nat → Bool
  | Num.int i, x => decide (toUnsigned i ≤ x)
  | Num.real d, x => Dbl.le d (Dbl.ofNat x)

/-- The comparison `x <= high` for `unsigned int x`, with the same conversions. -/
def Num.unsigned_le : Nat → Num → Bool
  | x, Num.int i => decide (x ≤ toUnsigned i)
  | x, Num.real d => Dbl.le (Dbl.ofNat x) d

/-- The mathematical value of a bound, as a real-typed value: what the specification compares
`x` with. An `int` is converted exactly. -/
def Num.toDbl : Num → Dbl
  | Num.int i => Dbl.fin (i : ℚ)
  | Num.real d => d

/-- The overload `check_bounded(const unsigned int x, ...)` (lines 193-215). -/
def check_bounded_unsigned (render : Num → String) (function : String) (x : Nat)
    (low high : Num) (name : String) (pol : Policy) (s : St) : Outcome × St :=
  if !(Num.le_unsigned low x && Num.unsigned_le x high) then
    domain_fail pol function
      (name ++ " is %1%, but must be finite and between " ++ render low ++ " and " ++ render high)
      (Dbl.ofNat x) s
  else (Outcome.ret true, s)

/-- The function `check_scale` (lines 217-231). -/
def check_scale (function : String) (scale : Dbl) (pol : Policy) (s : St) : Outcome × St :=
  if !Dbl.gt scale (Dbl.ofNat 0) || !Dbl.isfinite scale then
    domain_fail pol function "Scale parameter is %1%, but must be > 0 !" scale s
  else (Outcome.ret true, s)

/-- The function `check_inv_scale` (lines 233-247). -/
def check_inv_scale (function : String) (invScale : Dbl) (pol : Policy) (s : St) :
    Outcome × St :=
  if !Dbl.gt invScale (Dbl.ofNat 0) || !Dbl.isfinite invScale then
    domain_fail pol function "Inverse scale parameter is %1%, but must be > 0 !" invScale s
  else (Outcome.ret true, s)

/-- Generic `check_nonnegative` (lines 250-266). -/
def check_nonnegative (function : String) (x : Dbl) (name : String) (pol : Policy) (s : St) :
    Outcome × St :=
  if !Dbl.isfinite x || !Dbl.ge x (Dbl.ofNat 0) then
    domain_fail pol function (name ++ " is %1%, but must be finite and >= 0!") x s
  else (Outcome.ret true, s)

/-- The overload `check_nonnegative(const unsigned int&)` (lines 268-275). -/
def check_nonnegative_unsigned (_function : String) (_x : Nat) (_name : String) (_pol : Policy)
    (s : St) : Outcome × St :=
  (Outcome.ret true, s)

/-- The function `check_location` (lines 318-331). -/
def check_location (function : String) (location : Dbl) (pol : Policy) (s : St) :
    Outcome × St :=
  if !Dbl.isfinite location then
    domain_fail pol function "Location parameter is %1%, but must be finite!" location s
  else (Outcome.ret true, s)

/-- The function `check_lower_bound` (lines 333-346). -/
def check_lower_bound (function : String) (lb : Dbl) (pol : Policy) (s : St) : Outcome × St :=
  if !Dbl.isfinite lb then
    domain_fail pol function "Lower bound is %1%, but must be finite!" lb s
  else (Outcome.ret true, s)

/-- The function `check_upper_bound` (lines 349-362). -/
def check_upper_bound (function : String) (ub : Dbl) (pol : Policy) (s : St) : Outcome × St :=
  if !Dbl.isfinite ub then
    domain_fail pol function "Upper bound is %1%, but must be finite!" ub s
  else (Outcome.ret true, s)

/-- The function `check_bounds` (lines 364-382). A sub-check that returns `false` makes
`check_bounds` return `false`; one that throws ends the call with that exception. -/
def check_bounds (function : String) (lower upper : Dbl) (pol : Policy) (s : St) :
    Outcome × St :=
  match check_lower_bound function lower pol s with
  | (Outcome.ret true, s1) =>
    match check_upper_bound function upper pol s1 with
    | (Outcome.ret true, s2) =>
      if Dbl.ge lower upper then
        domain_fail pol function "lower parameter is %1%, but must be less than upper!" lower s2
      else (Outcome.ret true, s2)
    | r => r
  | r => r

/-- The function `check_size_match` (lines 384-401); `i` and `j` are `unsigned int` values, and
`msg << j` writes `j` in decimal. -/
def check_size_match (function : String) (i j : Nat) (pol : Policy) (s : St) : Outcome × St :=
  if i ≠ j then
    domain_fail pol function ("i and j must be same.  Found i=%1%, j=" ++ toString j)
      (Dbl.ofNat i) s
  else (Outcome.ret true, s)

/-- A dynamically sized Eigen matrix, as the list of its rows. -/
abbrev EigenMatrix := List (List Dbl)

/-- The coefficient access `Sigma(0,0)`; there is none when the matrix has no row or no column. -/
def EigenMatrix.coeff00 : EigenMatrix → Option Dbl
  | (v :: _) :: _ => some v
  | _ => none

/-- The coefficient access `theta(0)`; there is none in a vector of size 0. -/
def coeff0 : List Dbl → Option Dbl
  | v :: _ => some v
  | [] => none

/-- The function `check_cov_matrix` (lines 403-423). `cov_matrix_validate` is the external
structural validator and `render` the `operator<<` of the matrix type. -/
def check_cov_matrix (cov_matrix_validate : EigenMatrix → Bool) (render : EigenMatrix → String)
    (function : String) (Sigma : EigenMatrix) (pol : Policy) (s : St) : Outcome × St :=
  if !cov_matrix_validate Sigma then
    match EigenMatrix.coeff00 Sigma with
    | some v =>
      domain_fail pol function
        ("Sigma is not a valid covariance matrix."
          ++ " Sigma must be symmetric and positive semi-definite."
          ++ " Sigma:" ++ "\n" ++ render Sigma ++ "\n" ++ "Sigma(0,0): %1%") v s
    | none => (Outcome.fault, s)
  else (Outcome.ret true, s)

/-- The function `check_simplex` (lines 425-444). `simplex_validate` is the external structural
validator. -/
def check_simplex (simplex_validate : List Dbl → Bool) (function : String) (theta : List Dbl)
    (name : String) (pol : Policy) (s : St) : Outcome × St :=
  if !simplex_validate theta then
    match coeff0 theta with
    | some v =>
      domain_fail pol function
        (name ++ "is not a valid simplex." ++ " The first element of the simplex is: %1%.") v s
    | none => (Outcome.fault, s)
  else (Outcome.ret true, s)

/-- The result-slot contract of one call under the non-raising policy `p`, started in state `s`
and ended with `r`: a `true` result leaves the state as it was (slot unchanged, policy not
invoked); a `false` result comes with exactly one more policy invocation, made for `function`, and
the slot holds what that invocation returned. -/
def SlotContract (p : String → String → Dbl → Dbl) (function : String) (s : St)
    (r : Outcome × St) : Prop :=
  (r.1 = Outcome.ret true → r.2 = s) ∧
  (r.1 = Outcome.ret false →
    ∃ msg val, r.2 = { slot := p function msg val, calls := s.calls ++ [⟨function, msg, val⟩] })

/-- The contract of one call under the raising policy, started in state `s` and ended with `r`:
either the call returns `true` and leaves the state as it was, or it ends with a domain error
that carries `function`, a message template and an offending value, after that one policy
invocation and with the slot content it started with. -/
def RaisingContract (function : String) (s : St) (r : Outcome × St) : Prop :=
  r = (Outcome.ret true, s) ∨
  ∃ msg val, r = (Outcome.raised ⟨function, msg, val⟩,
    { slot := s.slot, calls := s.calls ++ [⟨function, msg, val⟩] })

/-- A failing branch never yields the result `true`. -/
theorem domain_fail_ne_true (pol : Policy) (function msg : String) (val : Dbl) (s : St) :
    (domain_fail pol function msg val s).1 ≠ Outcome.ret true := by
  unfold domain_fail
  cases pol function msg val <;> simp

/-- Under a non-raising policy a failing branch returns `false`, logs its one invocation and
stores the value the policy returned. -/
theorem domain_fail_nonRaising (p : String → String → Dbl → Dbl) (function msg : String)
    (val : Dbl) (s : St) :
    domain_fail (nonRaising p) function msg val s
      = (Outcome.ret false,
          { slot := p function msg val, calls := s.calls ++ [⟨function, msg, val⟩] }) := by
  simp [domain_fail, nonRaising]

/-- The two ways the loop can end when started at index `i`: every element from `i` on passes and
the loop returns `true` in the state it started in, or there is a first violating index `k ≥ i`
and the loop ends with the failing branch taken at `k`. -/
theorem scan_cases (y : List Dbl) (bad : Dbl → Bool) (onFail : Nat → Dbl → St → Outcome × St)
    (s : St) (n : Nat) : ∀ i : Nat, y.length - i = n →
    ((scan y bad onFail i s = (Outcome.ret true, s) ∧
        ∀ j (hj : j < y.length), i ≤ j → bad (y.get ⟨j, hj⟩) = false) ∨
      ∃ k, ∃ hk : k < y.length, i ≤ k ∧ bad (y.get ⟨k, hk⟩) = true ∧
        (∀ j (hj : j < k), i ≤ j → bad (y.get ⟨j, lt_trans hj hk⟩) = false) ∧
        scan y bad onFail i s = onFail k (y.get ⟨k, hk⟩) s) := by
  induction n with
  | zero =>
    intro i hi
    left
    have hle : y.length ≤ i := by omega
    constructor
    · rw [scan, dif_neg (Nat.not_lt.mpr hle)]
    · intro j hj hij; omega
  | succ n ih =>
    intro i hi
    have hlt : i < y.length := by omega
    by_cases hb : bad (y.get ⟨i, hlt⟩) = true
    · right
      refine ⟨i, hlt, le_refl i, hb, ?_, ?_⟩
      · intro j hj hij; omega
      · rw [scan, dif_pos hlt, if_pos hb]
    · have hb2 : bad (y.get ⟨i, hlt⟩) = false := by simpa using hb
      have hstep : scan y bad onFail i s = scan y bad onFail (i + 1) s := by
        rw [scan, dif_pos hlt, if_neg hb]
      rcases ih (i + 1) (by omega) with ⟨h1, h2⟩ | ⟨k, hk, hik, hkb, hgood, hres⟩
      · left
        refine ⟨by rw [hstep, h1], ?_⟩
        intro j hj hij
        rcases Nat.eq_or_lt_of_le hij with rfl | hlt2
        · exact hb2
        · exact h2 j hj hlt2
      · right
        refine ⟨k, hk, by omega, hkb, ?_, by rw [hstep, hres]⟩
        intro j hj hij
        rcases Nat.eq_or_lt_of_le hij with rfl | hlt2
        · exact hb2
        · exact hgood j hj hlt2

/-- When `k` is the first violating index, the loop from 0 ends with the failing branch at `k`. -/
theorem scan_first_bad (y : List Dbl) (bad : Dbl → Bool)
    (onFail : Nat → Dbl → St → Outcome × St) (s : St) (k : Nat) (hk : k < y.length)
    (hbad : bad (y.get ⟨k, hk⟩) = true)
    (hfirst : ∀ j (hj : j < k), bad (y.get ⟨j, lt_trans hj hk⟩) = false) :
    scan y bad onFail 0 s = onFail k (y.get ⟨k, hk⟩) s := by
  rcases scan_cases y bad onFail s (y.length - 0) 0 rfl with
    ⟨_, h2⟩ | ⟨k2, hk2, _, hkb, hgood, hres⟩
  · have := h2 k hk (Nat.zero_le k)
    rw [this] at hbad
    cases hbad
  · rcases Nat.lt_trichotomy k2 k with hlt | heq | hgt
    · have := hfirst k2 hlt
      rw [this] at hkb
      cases hkb
    · subst heq
      exact hres
    · have := hgood k hgt (Nat.zero_le k)
      rw [this] at hbad
      cases hbad

/-- When no element violates the condition the loop returns `true` and changes nothing. -/
theorem scan_all_good (y : List Dbl) (bad : Dbl → Bool)
    (onFail : Nat → Dbl → St → Outcome × St) (s : St)
    (hgood : ∀ v ∈ y, bad v = false) :
    scan y bad onFail 0 s = (Outcome.ret true, s) := by
  rcases scan_cases y bad onFail s (y.length - 0) 0 rfl with
    ⟨h1, _⟩ | ⟨k, hk, _, hkb, _, _⟩
  · exact h1
  · have := hgood (y.get ⟨k, hk⟩) (List.get_mem y k hk)
    rw [this] at hkb
    cases hkb

/-- If the failing branch never yields `true`, a loop that returns `true` found no violation and
left the state as it was. -/
theorem scan_true_inv (y : List Dbl) (bad : Dbl → Bool)
    (onFail : Nat → Dbl → St → Outcome × St) (s : St)
    (hne : ∀ i v s1, (onFail i v s1).1 ≠ Outcome.ret true)
    (htrue : (scan y bad onFail 0 s).1 = Outcome.ret true) :
    (∀ v ∈ y, bad v = false) ∧ scan y bad onFail 0 s = (Outcome.ret true, s) := by
  rcases scan_cases y bad onFail s (y.length - 0) 0 rfl with
    ⟨h1, h2⟩ | ⟨k, hk, _, _, _, hres⟩
  · refine ⟨?_, h1⟩
    intro v hv
    obtain ⟨n, hn⟩ := List.get_of_mem hv
    rw [← hn]
    exact h2 n.1 n.2 (Nat.zero_le _)
  · rw [hres] at htrue
    exact absurd htrue (hne k _ s)

/-- If the failing branch never yields `true`, the loop returns `true` exactly when no element
violates the condition. -/
theorem scan_true_iff (y : List Dbl) (bad : Dbl → Bool)
    (onFail : Nat → Dbl → St → Outcome × St) (s : St)
    (hne : ∀ i v s1, (onFail i v s1).1 ≠ Outcome.ret true) :
    (scan y bad onFail 0 s).1 = Outcome.ret true ↔ ∀ v ∈ y, bad v = false := by
  constructor
  · intro h
    exact (scan_true_inv y bad onFail s hne h).1
  · intro h
    rw [scan_all_good y bad onFail s h]

/-- The loop ends the same way on two sequences that agree up to the first violating index `k`
of the first one. -/
theorem scan_same_upto (y y2 : List Dbl) (bad : Dbl → Bool)
    (onFail : Nat → Dbl → St → Outcome × St) (s : St) (k : Nat) (hk : k < y.length)
    (hbad : bad (y.get ⟨k, hk⟩) = true)
    (hfirst : ∀ j (hj : j < k), bad (y.get ⟨j, lt_trans hj hk⟩) = false)
    (hagree : ∀ j, j ≤ k → y2[j]? = y[j]?) :
    scan y2 bad onFail 0 s = scan y bad onFail 0 s := by
  have hget : ∀ j (hj : j ≤ k), ∃ h2 : j < y2.length,
      y2.get ⟨j, h2⟩ = y.get ⟨j, lt_of_le_of_lt hj hk⟩ := by
    intro j hj
    have h1 := hagree j hj
    rw [List.getElem?_eq_getElem (lt_of_le_of_lt hj hk)] at h1
    obtain ⟨h2, h3⟩ := List.getElem?_eq_some.mp h1
    exact ⟨h2, h3⟩
  obtain ⟨hk2, hek⟩ := hget k (le_refl k)
  have hbad2 : bad (y2.get ⟨k, hk2⟩) = true := by rw [hek]; exact hbad
  have hfirst2 : ∀ j (hj : j < k), bad (y2.get ⟨j, lt_trans hj hk2⟩) = false := by
    intro j hj
    obtain ⟨_, hej⟩ := hget j (le_of_lt hj)
    rw [hej]
    exact hfirst j hj
  rw [scan_first_bad y bad onFail s k hk hbad hfirst,
    scan_first_bad y2 bad onFail s k hk2 hbad2 hfirst2, hek]

/-- A guarded failing branch returns `true` exactly when the guard is false. -/
theorem guard_true_iff (c : Bool) (pol : Policy) (function msg : String) (val : Dbl) (s : St) :
    (if c = true then domain_fail pol function msg val s else (Outcome.ret true, s)).1
      = Outcome.ret true ↔ c = false := by
  cases c
  · simp
  · simp only [if_true]
    constructor
    · intro h; exact absurd h (domain_fail_ne_true _ _ _ _ _)
    · intro h; cases h

/-- A guarded failing branch keeps the result-slot contract. -/
theorem slotContract_guard (p : String → String → Dbl → Dbl) (c : Bool)
    (function msg : String) (val : Dbl) (s : St) :
    SlotContract p function s
      (if c = true then domain_fail (nonRaising p) function msg val s
        else (Outcome.ret true, s)) := by
  cases c
  · simp [SlotContract]
  · simp only [if_true, domain_fail_nonRaising]
    refine ⟨?_, ?_⟩
    · intro h; cases h
    · intro _; exact ⟨msg, val, rfl⟩

/-- A loop whose failing branch keeps the result-slot contract keeps it too. -/
theorem slotContract_scan (p : String → String → Dbl → Dbl) (function : String)
    (y : List Dbl) (bad : Dbl → Bool) (onFail : Nat → Dbl → St → Outcome × St) (s : St)
    (h : ∀ i v, SlotContract p function s (onFail i v s)) :
    SlotContract p function s (scan y bad onFail 0 s) := by
  rcases scan_cases y bad onFail s (y.length - 0) 0 rfl with
    ⟨h1, _⟩ | ⟨k, hk, _, _, _, hres⟩
  · rw [h1]
    simp [SlotContract]
  · rw [hres]
    exact h k _

/-- A faulting call satisfies the result-slot contract vacuously: it returns no boolean. -/
theorem slotContract_fault (p : String → String → Dbl → Dbl) (function : String) (s : St) :
    SlotContract p function s (Outcome.fault, s) := by
  simp [SlotContract]

/-- The three sub-checks of `check_bounds` in sequence: the first that fails ends the call. -/
theorem check_bounds_unfold (function : String) (lower upper : Dbl) (pol : Policy) (s : St) :
    check_bounds function lower upper pol s
      = if (!Dbl.isfinite lower) = true then
          domain_fail pol function "Lower bound is %1%, but must be finite!" lower s
        else if (!Dbl.isfinite upper) = true then
          domain_fail pol function "Upper bound is %1%, but must be finite!" upper s
        else if Dbl.ge lower upper = true then
          domain_fail pol function "lower parameter is %1%, but must be less than upper!" lower s
        else (Outcome.ret true, s) := by
  unfold check_bounds check_lower_bound check_upper_bound
  cases hl : Dbl.isfinite lower
  · simp only [Bool.not_false, if_true]
    unfold domain_fail
    cases pol function "Lower bound is %1%, but must be finite!" lower <;> rfl
  · cases hu : Dbl.isfinite upper
    · simp only [Bool.not_true, Bool.not_false, if_true, Bool.false_eq_true, if_false]
      unfold domain_fail
      cases pol function "Upper bound is %1%, but must be finite!" upper <;> rfl
    · simp only [Bool.not_true, Bool.false_eq_true, if_false]

/-- The failing branch with the dangling message never yields the result `true`. -/
theorem dangling_fail_ne_true (pol : Policy) (function stale : String) (val : Dbl) (s : St) :
    (dangling_fail pol function stale val s).1 ≠ Outcome.ret true := by
  unfold dangling_fail
  cases pol function stale val <;> simp

/-- Under a non-raising policy the failing branch with the dangling message returns `false`,
logs its one invocation and stores the value the policy returned on the stale content. -/
theorem dangling_fail_nonRaising (p : String → String → Dbl → Dbl) (function stale : String)
    (val : Dbl) (s : St) :
    dangling_fail (nonRaising p) function stale val s
      = (Outcome.ret false,
          { slot := p function stale val, calls := s.calls ++ [⟨function, stale, val⟩] }) := by
  simp [dangling_fail, nonRaising]

/-- Under the raising policy the failing branch with the dangling message has no defined
outcome. -/
theorem dangling_fail_raising (function stale : String) (val : Dbl) (s : St) :
    dangling_fail raising function stale val s = (Outcome.fault, s) := by
  simp [dangling_fail, raising]

/-- C1. For every finite `x > 0`, every function and parameter name, every initial slot content
and call log, and every policy (raising or not), scalar `check_positive` returns `true` and the
state afterwards is the state before: the slot is unchanged and the policy was not invoked. -/
theorem check_positive_accepts (function name : String) (q : ℚ) (pol : Policy) (s : St)
    (hq : 0 < q) :
    check_positive function (Dbl.fin q) name pol s = (Outcome.ret true, s) := by
  simp [check_positive, Dbl.isfinite, Dbl.gt, Dbl.lt, Dbl.ofNat, hq]

theorem check_positive_accepts_witness :
    (0 : ℚ) < 3 ∧
      check_positive "normal_log" (Dbl.fin 3) "sigma" raising ⟨Dbl.fin 7, []⟩
        = (Outcome.ret true, ⟨Dbl.fin 7, []⟩) :=
  ⟨by norm_num, check_positive_accepts "normal_log" "sigma" 3 raising ⟨Dbl.fin 7, []⟩ (by norm_num)⟩

/-- C2. For `x` NaN, an infinity, zero or negative and a non-raising policy `p`, scalar
`check_positive` returns `false`, invokes the policy once, and the slot afterwards holds
`p function (name ++ " is %1%, but must be finite and > 0!") x`. -/
theorem check_positive_rejects (function name : String) (x : Dbl)
    (p : String → String → Dbl → Dbl) (s : St)
    (hx : x = Dbl.nan ∨ x = Dbl.ninf ∨ x = Dbl.pinf ∨ ∃ q : ℚ, q ≤ 0 ∧ x = Dbl.fin q) :
    check_positive function x name (nonRaising p) s
      = (Outcome.ret false,
          { slot := p function (name ++ " is %1%, but must be finite and > 0!") x,
            calls := s.calls ++ [⟨function, name ++ " is %1%, but must be finite and > 0!", x⟩] }) := by
  rcases hx with rfl | rfl | rfl | ⟨q, hq, rfl⟩
  · simp [check_positive, Dbl.isfinite, domain_fail, nonRaising]
  · simp [check_positive, Dbl.isfinite, domain_fail, nonRaising]
  · simp [check_positive, Dbl.isfinite, domain_fail, nonRaising]
  · simp [check_positive, Dbl.isfinite, Dbl.gt, Dbl.lt, Dbl.ofNat, domain_fail, nonRaising, hq]

theorem check_positive_rejects_witness :
    (Dbl.fin 0 = Dbl.nan ∨ Dbl.fin 0 = Dbl.ninf ∨ Dbl.fin 0 = Dbl.pinf
        ∨ ∃ q : ℚ, q ≤ 0 ∧ Dbl.fin 0 = Dbl.fin q) ∧
      check_positive "f" (Dbl.fin 0) "x" (nonRaising (fun _ _ _ => Dbl.nan)) ⟨Dbl.fin 1, []⟩
        = (Outcome.ret false,
            { slot := Dbl.nan,
              calls := [⟨"f", "x is %1%, but must be finite and > 0!", Dbl.fin 0⟩] }) :=
  ⟨Or.inr (Or.inr (Or.inr ⟨0, le_refl 0, rfl⟩)),
    check_positive_rejects "f" "x" (Dbl.fin 0) (fun _ _ _ => Dbl.nan) ⟨Dbl.fin 1, []⟩
      (Or.inr (Or.inr (Or.inr ⟨0, le_refl 0, rfl⟩)))⟩

/-- C3. Generic `check_bounded` on real-typed `x`, `low`, `high`: under every policy it returns
`true` exactly when `x` is finite and `low <= x` and `x <= high` (both ends inclusive), and under
a non-raising policy it returns `false` otherwise; for finite bounds `l`, `h` that is `x = q` with
`l ≤ q ≤ h`. With `low = 2`, `high = 5` it returns `true` for `x = 2` and `x = 5`, and `false`
for `x = 1.999` and `x = NaN`. -/
theorem check_bounded_inclusive (render : Dbl → String) (function name : String)
    (x low high : Dbl) (pol : Policy) (p : String → String → Dbl → Dbl) (s : St) :
    ((check_bounded render function x low high name pol s).1 = Outcome.ret true ↔
        (Dbl.isfinite x = true ∧ Dbl.le low x = true ∧ Dbl.le x high = true)) ∧
    ((check_bounded render function x low high name (nonRaising p) s).1 = Outcome.ret false ↔
        ¬ (Dbl.isfinite x = true ∧ Dbl.le low x = true ∧ Dbl.le x high = true)) ∧
    (∀ l h : ℚ,
      ((check_bounded render function x (Dbl.fin l) (Dbl.fin h) name pol s).1 = Outcome.ret true ↔
        ∃ q : ℚ, x = Dbl.fin q ∧ l ≤ q ∧ q ≤ h)) ∧
    (check_bounded render function (Dbl.fin 2) (Dbl.fin 2) (Dbl.fin 5) name pol s).1
        = Outcome.ret true ∧
    (check_bounded render function (Dbl.fin 5) (Dbl.fin 2) (Dbl.fin 5) name pol s).1
        = Outcome.ret true ∧
    (check_bounded render function (Dbl.fin (1999 / 1000)) (Dbl.fin 2) (Dbl.fin 5) name
        (nonRaising p) s).1 = Outcome.ret false ∧
    (check_bounded render function Dbl.nan (Dbl.fin 2) (Dbl.fin 5) name (nonRaising p) s).1
        = Outcome.ret false := by
  have key : ∀ (x low high : Dbl) (pol : Policy),
      ((check_bounded render function x low high name pol s).1 = Outcome.ret true ↔
        (Dbl.isfinite x = true ∧ Dbl.le low x = true ∧ Dbl.le x high = true)) := by
    intro x low high pol
    unfold check_bounded
    by_cases h : (Dbl.isfinite x = true ∧ Dbl.le low x = true ∧ Dbl.le x high = true)
    · obtain ⟨h1, h2, h3⟩ := h
      simp [h1, h2, h3]
    · have hc : (!Dbl.isfinite x || !(Dbl.le low x && Dbl.le x high)) = true := by
        revert h
        generalize Dbl.isfinite x = a
        generalize Dbl.le low x = b
        generalize Dbl.le x high = c
        cases a <;> cases b <;> cases c <;> simp
      rw [if_pos hc]
      constructor
      · intro hh; exact absurd hh (domain_fail_ne_true _ _ _ _ _)
      · intro hh; exact absurd hh h
  have key2 : ∀ (x low high : Dbl),
      ((check_bounded render function x low high name (nonRaising p) s).1 = Outcome.ret false ↔
        ¬ (Dbl.isfinite x = true ∧ Dbl.le low x = true ∧ Dbl.le x high = true)) := by
    intro x low high
    unfold check_bounded
    by_cases h : (Dbl.isfinite x = true ∧ Dbl.le low x = true ∧ Dbl.le x high = true)
    · obtain ⟨h1, h2, h3⟩ := h
      simp [h1, h2, h3]
    · have hc : (!Dbl.isfinite x || !(Dbl.le low x && Dbl.le x high)) = true := by
        revert h
        generalize Dbl.isfinite x = a
        generalize Dbl.le low x = b
        generalize Dbl.le x high = c
        cases a <;> cases b <;> cases c <;> simp
      rw [if_pos hc, domain_fail_nonRaising]
      simp [h]
  refine ⟨key x low high pol, key2 x low high, ?_, ?_, ?_, ?_, ?_⟩
  · intro l h
    rw [key]
    cases x <;> simp [Dbl.isfinite, Dbl.le]
  · rw [key]; simp [Dbl.isfinite, Dbl.le]; norm_num
  · rw [key]; simp [Dbl.isfinite, Dbl.le]; norm_num
  · rw [key2]; simp [Dbl.isfinite, Dbl.le]; norm_num
  · rw [key2]; simp [Dbl.isfinite, Dbl.le]

/-- C4. When `y` contains a non-finite element and `k` is the smallest index with `y[k]` NaN or
infinite, both sequence overloads of `check_finite` return `false` under a non-raising policy
`p`, after exactly one policy invocation, made with the message
`name ++ "[k] is %1%, but must be finite!"` and the value `y[k]`, whose result is stored in the
slot. -/
theorem check_finite_sequence_first_violation (function name : String) (y : List Dbl) (k : Nat)
    (p : String → String → Dbl → Dbl) (s : St) (hk : k < y.length)
    (hbad : Dbl.isfinite (y.get ⟨k, hk⟩) = false)
    (hfirst : ∀ j (hj : j < k), Dbl.isfinite (y.get ⟨j, lt_trans hj hk⟩) = true) :
    check_finite_vector function y name (nonRaising p) s
      = (Outcome.ret false,
          { slot := p function (name ++ "[" ++ toString k ++ "] is %1%, but must be finite!")
              (y.get ⟨k, hk⟩),
            calls := s.calls ++
              [⟨function, name ++ "[" ++ toString k ++ "] is %1%, but must be finite!",
                y.get ⟨k, hk⟩⟩] }) ∧
    check_finite_eigen function y name (nonRaising p) s
      = (Outcome.ret false,
          { slot := p function (name ++ "[" ++ toString k ++ "] is %1%, but must be finite!")
              (y.get ⟨k, hk⟩),
            calls := s.calls ++
              [⟨function, name ++ "[" ++ toString k ++ "] is %1%, but must be finite!",
                y.get ⟨k, hk⟩⟩] }) := by
  have hb : (fun v => !Dbl.isfinite v) (y.get ⟨k, hk⟩) = true := by
    show (!Dbl.isfinite (y.get ⟨k, hk⟩)) = true
    rw [hbad]
    rfl
  have hf : ∀ j (hj : j < k), (fun v => !Dbl.isfinite v) (y.get ⟨j, lt_trans hj hk⟩) = false := by
    intro j hj
    show (!Dbl.isfinite (y.get ⟨j, lt_trans hj hk⟩)) = false
    rw [hfirst j hj]
    rfl
  constructor
  · unfold check_finite_vector
    rw [scan_first_bad y _ _ s k hk hb hf, domain_fail_nonRaising]
  · unfold check_finite_eigen
    rw [scan_first_bad y _ _ s k hk hb hf, domain_fail_nonRaising]

theorem check_finite_sequence_first_violation_witness :
    check_finite_vector "f" [Dbl.fin 1, Dbl.fin 2, Dbl.nan, Dbl.fin 99] "y"
        (nonRaising (fun _ _ _ => Dbl.nan)) ⟨Dbl.fin 0, []⟩
      = (Outcome.ret false,
          { slot := Dbl.nan, calls := [⟨"f", "y[2] is %1%, but must be finite!", Dbl.nan⟩] }) ∧
    check_finite_eigen "f" [Dbl.fin 1, Dbl.fin 2, Dbl.nan, Dbl.fin 99] "y"
        (nonRaising (fun _ _ _ => Dbl.nan)) ⟨Dbl.fin 0, []⟩
      = (Outcome.ret false,
          { slot := Dbl.nan, calls := [⟨"f", "y[2] is %1%, but must be finite!", Dbl.nan⟩] }) :=
  check_finite_sequence_first_violation "f" "y" [Dbl.fin 1, Dbl.fin 2, Dbl.nan, Dbl.fin 99] 2
    (fun _ _ _ => Dbl.nan) ⟨Dbl.fin 0, []⟩ (by decide) rfl
    (fun j hj => by
      have h : j = 0 ∨ j = 1 := by omega
      rcases h with rfl | rfl <;> rfl)

/-- The sequence overloads whose failing branch passes the message while its buffer is alive
(`check_not_nan` on an Eigen vector, both `check_finite` overloads, `check_positive` on a
`std::vector`) do not look past the first violation: when `k` is the first violating index of `y`
and `y2` agrees with `y` on the indices `0..k`, the two calls end with the same outcome and the
same state, whatever follows index `k` and whatever the two lengths are. -/
theorem aggregate_checks_ignore_tail (function name : String) (y y2 : List Dbl) (k : Nat)
    (pol : Policy) (s : St) (hagree : ∀ j, j ≤ k → y2[j]? = y[j]?) (hk : k < y.length) :
    (Dbl.isnan (y.get ⟨k, hk⟩) = true →
      (∀ j (hj : j < k), Dbl.isnan (y.get ⟨j, lt_trans hj hk⟩) = false) →
      check_not_nan_eigen function y2 name pol s = check_not_nan_eigen function y name pol s) ∧
    (Dbl.isfinite (y.get ⟨k, hk⟩) = false →
      (∀ j (hj : j < k), Dbl.isfinite (y.get ⟨j, lt_trans hj hk⟩) = true) →
      check_finite_vector function y2 name pol s = check_finite_vector function y name pol s ∧
      check_finite_eigen function y2 name pol s = check_finite_eigen function y name pol s) ∧
    ((!Dbl.isfinite (y.get ⟨k, hk⟩) || !Dbl.gt (y.get ⟨k, hk⟩) (Dbl.ofNat 0)) = true →
      (∀ j (hj : j < k), (!Dbl.isfinite (y.get ⟨j, lt_trans hj hk⟩)
          || !Dbl.gt (y.get ⟨j, lt_trans hj hk⟩) (Dbl.ofNat 0)) = false) →
      check_positive_vector function y2 name pol s
        = check_positive_vector function y name pol s) := by
  refine ⟨?_, ?_, ?_⟩
  · intro hbad hfirst
    unfold check_not_nan_eigen
    exact scan_same_upto y y2 _ _ s k hk hbad hfirst hagree
  · intro hbad hfirst
    have hb : (fun v => !Dbl.isfinite v) (y.get ⟨k, hk⟩) = true := by
      show (!Dbl.isfinite (y.get ⟨k, hk⟩)) = true
      rw [hbad]
      rfl
    have hf : ∀ j (hj : j < k),
        (fun v => !Dbl.isfinite v) (y.get ⟨j, lt_trans hj hk⟩) = false := by
      intro j hj
      show (!Dbl.isfinite (y.get ⟨j, lt_trans hj hk⟩)) = false
      rw [hfirst j hj]
      rfl
    unfold check_finite_vector check_finite_eigen
    exact ⟨scan_same_upto y y2 _ _ s k hk hb hf hagree, scan_same_upto y y2 _ _ s k hk hb hf hagree⟩
  · intro hbad hfirst
    unfold check_positive_vector
    exact scan_same_upto y y2 (fun v => !Dbl.isfinite v || !Dbl.gt v (Dbl.ofNat 0)) _ s k hk
      hbad hfirst hagree

/-- When the policy does not tell the two stale contents apart, as a policy that never looks at
its message does, the `std::vector` overload of `check_not_nan` does not look past the first NaN
either: on two sequences that agree up to the first NaN index `k` of the first one, the two calls
end with the same outcome and the same slot content. -/
theorem check_not_nan_vector_ignore_tail (stale stale2 function name : String)
    (y y2 : List Dbl) (k : Nat) (pol : Policy) (s : St)
    (hign : ∀ v, pol function stale2 v = pol function stale v)
    (hagree : ∀ j, j ≤ k → y2[j]? = y[j]?) (hk : k < y.length)
    (hbad : Dbl.isnan (y.get ⟨k, hk⟩) = true)
    (hfirst : ∀ j (hj : j < k), Dbl.isnan (y.get ⟨j, lt_trans hj hk⟩) = false) :
    (check_not_nan_vector stale2 function y2 name pol s).1
      = (check_not_nan_vector stale function y name pol s).1 ∧
    (check_not_nan_vector stale2 function y2 name pol s).2.slot
      = (check_not_nan_vector stale function y name pol s).2.slot := by
  have h2 : scan y2 Dbl.isnan (fun _ v s1 => dangling_fail pol function stale2 v s1) 0 s
      = scan y Dbl.isnan (fun _ v s1 => dangling_fail pol function stale2 v s1) 0 s :=
    scan_same_upto y y2 _ _ s k hk hbad hfirst hagree
  unfold check_not_nan_vector
  rw [h2, scan_first_bad y Dbl.isnan _ s k hk hbad hfirst,
    scan_first_bad y Dbl.isnan _ s k hk hbad hfirst]
  unfold dangling_fail
  rw [hign]
  cases pol function stale (y.get ⟨k, hk⟩) <;> exact ⟨rfl, rfl⟩

/-- C5. On the `std::vector` `[NaN]`, whose first violating index is 0, `check_not_nan` hands
`raise_domain_error` a message pointer whose buffer is already destroyed (line 54). Two calls on
this same sequence under a non-raising policy that uses its message end with different slot
contents when the destroyed buffer holds different bytes, and under the throwing policy the call
has no defined outcome at all, where the claim promises the same boolean, template and slot
content. The Eigen overload, which passes `message.str().c_str()` inside the call, returns
`false` with the template `y[0] is %1%, but must not be nan!` on the same input. -/
theorem check_not_nan_vector_dangling_message (s : St) :
    (check_not_nan_vector "y[0] is %1%, but must not be nan!" "f" [Dbl.nan] "y"
        (nonRaising (fun _ m _ =>
          if m = "y[0] is %1%, but must not be nan!" then Dbl.fin 1 else Dbl.fin 0)) s)
      = (Outcome.ret false,
          { slot := Dbl.fin 1,
            calls := s.calls ++ [⟨"f", "y[0] is %1%, but must not be nan!", Dbl.nan⟩] }) ∧
    (check_not_nan_vector "" "f" [Dbl.nan] "y"
        (nonRaising (fun _ m _ =>
          if m = "y[0] is %1%, but must not be nan!" then Dbl.fin 1 else Dbl.fin 0)) s)
      = (Outcome.ret false, { slot := Dbl.fin 0, calls := s.calls ++ [⟨"f", "", Dbl.nan⟩] }) ∧
    (∀ stale : String,
      check_not_nan_vector stale "f" [Dbl.nan] "y" raising s = (Outcome.fault, s)) ∧
    check_not_nan_eigen "f" [Dbl.nan] "y"
        (nonRaising (fun _ m _ =>
          if m = "y[0] is %1%, but must not be nan!" then Dbl.fin 1 else Dbl.fin 0)) s
      = (Outcome.ret false,
          { slot := Dbl.fin 1,
            calls := s.calls ++ [⟨"f", "y[0] is %1%, but must not be nan!", Dbl.nan⟩] }) := by
  refine ⟨?_, ?_, ?_, ?_⟩
  · unfold check_not_nan_vector
    rw [scan_first_bad [Dbl.nan] Dbl.isnan _ s 0 (by decide) rfl (fun j hj => by omega),
      dangling_fail_nonRaising]
    rfl
  · unfold check_not_nan_vector
    rw [scan_first_bad [Dbl.nan] Dbl.isnan _ s 0 (by decide) rfl (fun j hj => by omega),
      dangling_fail_nonRaising]
    rfl
  · intro stale
    unfold check_not_nan_vector
    rw [scan_first_bad [Dbl.nan] Dbl.isnan _ s 0 (by decide) rfl (fun j hj => by omega),
      dangling_fail_raising]
  · unfold check_not_nan_eigen
    rw [scan_first_bad [Dbl.nan] Dbl.isnan _ s 0 (by decide) rfl (fun j hj => by omega),
      domain_fail_nonRaising]
    rfl

/-- C6. For each sequence overload of `check_not_nan`, `check_finite` and `check_positive`, every
sequence `y` and every policy: the aggregate check returns `true` if and only if the scalar check
returns `true` on every element of `y`, and when it returns `true` the state afterwards is the
state before (policy not invoked, slot untouched). -/
theorem aggregate_true_iff_elementwise (stale function name : String) (y : List Dbl)
    (pol : Policy) (s : St) :
    (((check_not_nan_vector stale function y name pol s).1 = Outcome.ret true ↔
        ∀ v ∈ y, (check_not_nan function v name pol s).1 = Outcome.ret true) ∧
      ((check_not_nan_vector stale function y name pol s).1 = Outcome.ret true →
        (check_not_nan_vector stale function y name pol s).2 = s)) ∧
    (((check_not_nan_eigen function y name pol s).1 = Outcome.ret true ↔
        ∀ v ∈ y, (check_not_nan function v name pol s).1 = Outcome.ret true) ∧
      ((check_not_nan_eigen function y name pol s).1 = Outcome.ret true →
        (check_not_nan_eigen function y name pol s).2 = s)) ∧
    (((check_finite_vector function y name pol s).1 = Outcome.ret true ↔
        ∀ v ∈ y, (check_finite function v name pol s).1 = Outcome.ret true) ∧
      ((check_finite_vector function y name pol s).1 = Outcome.ret true →
        (check_finite_vector function y name pol s).2 = s)) ∧
    (((check_finite_eigen function y name pol s).1 = Outcome.ret true ↔
        ∀ v ∈ y, (check_finite function v name pol s).1 = Outcome.ret true) ∧
      ((check_finite_eigen function y name pol s).1 = Outcome.ret true →
        (check_finite_eigen function y name pol s).2 = s)) ∧
    (((check_positive_vector function y name pol s).1 = Outcome.ret true ↔
        ∀ v ∈ y, (check_positive function v name pol s).1 = Outcome.ret true) ∧
      ((check_positive_vector function y name pol s).1 = Outcome.ret true →
        (check_positive_vector function y name pol s).2 = s)) := by
  have hfault : ∀ (i : Nat) (v : Dbl) (s1 : St),
      ((fun (_ : Nat) (v2 : Dbl) (s2 : St) => dangling_fail pol function stale v2 s2) i v s1).1
        ≠ Outcome.ret true :=
    fun _ _ _ => dangling_fail_ne_true _ _ _ _ _
  refine ⟨⟨?_, ?_⟩, ⟨?_, ?_⟩, ⟨?_, ?_⟩, ⟨?_, ?_⟩, ⟨?_, ?_⟩⟩
  · unfold check_not_nan_vector check_not_nan
    rw [scan_true_iff y _ _ s hfault]
    simp only [guard_true_iff]
  · intro h
    unfold check_not_nan_vector at h ⊢
    rw [(scan_true_inv y _ _ s hfault h).2]
  · unfold check_not_nan_eigen check_not_nan
    rw [scan_true_iff y _ _ s (fun i v s1 => domain_fail_ne_true _ _ _ _ _)]
    simp only [guard_true_iff]
  · intro h
    unfold check_not_nan_eigen at h ⊢
    rw [(scan_true_inv y _ _ s (fun i v s1 => domain_fail_ne_true _ _ _ _ _) h).2]
  · unfold check_finite_vector check_finite
    rw [scan_true_iff y _ _ s (fun i v s1 => domain_fail_ne_true _ _ _ _ _)]
    simp only [guard_true_iff]
  · intro h
    unfold check_finite_vector at h ⊢
    rw [(scan_true_inv y _ _ s (fun i v s1 => domain_fail_ne_true _ _ _ _ _) h).2]
  · unfold check_finite_eigen check_finite
    rw [scan_true_iff y _ _ s (fun i v s1 => domain_fail_ne_true _ _ _ _ _)]
    simp only [guard_true_iff]
  · intro h
    unfold check_finite_eigen at h ⊢
    rw [(scan_true_inv y _ _ s (fun i v s1 => domain_fail_ne_true _ _ _ _ _) h).2]
  · unfold check_positive_vector check_positive
    rw [scan_true_iff y _ _ s (fun i v s1 => domain_fail_ne_true _ _ _ _ _)]
    simp only [guard_true_iff]
  · intro h
    unfold check_positive_vector at h ⊢
    rw [(scan_true_inv y _ _ s (fun i v s1 => domain_fail_ne_true _ _ _ _ _) h).2]

/-- C7. Result-slot contract of every check of the file under a non-raising policy `p`: a call
that returns `true` leaves the slot and the invocation log as they were, and a call that returns
`false` has invoked the policy exactly once and the slot holds the value of that invocation. It
covers `check_not_nan`, `check_finite`, `check_greater`, `check_bounded`, `check_scale`,
`check_inv_scale`, `check_nonnegative`, `check_positive`, `check_location`, `check_lower_bound`,
`check_upper_bound`, `check_bounds`, `check_size_match`, `check_cov_matrix` and `check_simplex`,
with their sequence and `unsigned int` overloads. -/
theorem slot_contract_all_checks (p : String → String → Dbl → Dbl)
    (stale function name : String) (s : St) (x low high : Dbl) (y : List Dbl) (u i j : Nat)
    (nlow nhigh : Num)
    (render : Dbl → String) (renderNum : Num → String)
    (cov_matrix_validate : EigenMatrix → Bool) (renderMatrix : EigenMatrix → String)
    (Sigma : EigenMatrix) (simplex_validate : List Dbl → Bool) :
    SlotContract p function s (check_not_nan function x name (nonRaising p) s) ∧
    SlotContract p function s (check_not_nan_vector stale function y name (nonRaising p) s) ∧
    SlotContract p function s (check_not_nan_eigen function y name (nonRaising p) s) ∧
    SlotContract p function s (check_finite function x name (nonRaising p) s) ∧
    SlotContract p function s (check_finite_vector function y name (nonRaising p) s) ∧
    SlotContract p function s (check_finite_eigen function y name (nonRaising p) s) ∧
    SlotContract p function s (check_greater render function x low name (nonRaising p) s) ∧
    SlotContract p function s
      (check_bounded render function x low high name (nonRaising p) s) ∧
    SlotContract p function s
      (check_bounded_unsigned renderNum function u nlow nhigh name (nonRaising p) s) ∧
    SlotContract p function s (check_scale function x (nonRaising p) s) ∧
    SlotContract p function s (check_inv_scale function x (nonRaising p) s) ∧
    SlotContract p function s (check_nonnegative function x name (nonRaising p) s) ∧
    SlotContract p function s (check_nonnegative_unsigned function u name (nonRaising p) s) ∧
    SlotContract p function s (check_positive function x name (nonRaising p) s) ∧
    SlotContract p function s (check_positive_vector function y name (nonRaising p) s) ∧
    SlotContract p function s (check_location function x (nonRaising p) s) ∧
    SlotContract p function s (check_lower_bound function x (nonRaising p) s) ∧
    SlotContract p function s (check_upper_bound function x (nonRaising p) s) ∧
    SlotContract p function s (check_bounds function low high (nonRaising p) s) ∧
    SlotContract p function s (check_size_match function i j (nonRaising p) s) ∧
    SlotContract p function s
      (check_cov_matrix cov_matrix_validate renderMatrix function Sigma (nonRaising p) s) ∧
    SlotContract p function s
      (check_simplex simplex_validate function y name (nonRaising p) s) := by
  refine ⟨?_, ?_, ?_, ?_, ?_, ?_, ?_, ?_, ?_, ?_, ?_, ?_, ?_, ?_, ?_, ?_, ?_, ?_, ?_, ?_, ?_, ?_⟩
  · exact slotContract_guard p _ function _ x s
  · refine slotContract_scan p function y _ _ s (fun _ v => ?_)
    show SlotContract p function s (dangling_fail (nonRaising p) function stale v s)
    rw [dangling_fail_nonRaising]
    refine ⟨?_, ?_⟩
    · intro h
      cases h
    · intro _
      exact ⟨stale, v, rfl⟩
  · exact slotContract_scan p function y _ _ s
      (fun k v => slotContract_guard p true function _ v s)
  · exact slotContract_guard p _ function _ x s
  · exact slotContract_scan p function y _ _ s
      (fun k v => slotContract_guard p true function _ v s)
  · exact slotContract_scan p function y _ _ s
      (fun k v => slotContract_guard p true function _ v s)
  · exact slotContract_guard p _ function _ x s
  · exact slotContract_guard p _ function _ x s
  · exact slotContract_guard p _ function _ _ s
  · exact slotContract_guard p _ function _ x s
  · exact slotContract_guard p _ function _ x s
  · exact slotContract_guard p _ function _ x s
  · simp [SlotContract, check_nonnegative_unsigned]
  · exact slotContract_guard p _ function _ x s
  · exact slotContract_scan p function y _ _ s
      (fun k v => slotContract_guard p true function _ v s)
  · exact slotContract_guard p _ function _ x s
  · exact slotContract_guard p _ function _ x s
  · exact slotContract_guard p _ function _ x s
  · rw [check_bounds_unfold]
    cases Dbl.isfinite low
    · exact slotContract_guard p true function _ low s
    · cases Dbl.isfinite high
      · exact slotContract_guard p true function _ high s
      · exact slotContract_guard p _ function _ low s
  · unfold check_size_match
    by_cases hij : i = j
    · simp [SlotContract, hij]
    · rw [if_pos hij]
      exact slotContract_guard p true function _ _ s
  · unfold check_cov_matrix
    cases cov_matrix_validate Sigma
    · cases EigenMatrix.coeff00 Sigma
      · exact slotContract_fault p function s
      · exact slotContract_guard p true function _ _ s
    · simp [SlotContract]
  · unfold check_simplex
    cases simplex_validate y
    · cases coeff0 y
      · exact slotContract_fault p function s
      · exact slotContract_guard p true function _ _ s
    · simp [SlotContract]

/-- C8. Under every policy `check_bounds` returns `true` if and only if `lower` is finite,
`upper` is finite and `lower < upper` strictly, so equal bounds fail. When both are finite and
`lower >= upper`, a non-raising policy makes it return `false` after one invocation with the
template `lower parameter is %1%, but must be less than upper!` and `lower` as offending value,
as for `lower = 5`, `upper = 3`. -/
theorem check_bounds_strict_order (function : String) (lower upper : Dbl) (pol : Policy)
    (p : String → String → Dbl → Dbl) (s : St) :
    ((check_bounds function lower upper pol s).1 = Outcome.ret true ↔
        ∃ a b : ℚ, lower = Dbl.fin a ∧ upper = Dbl.fin b ∧ a < b) ∧
    ((check_bounds function lower upper pol s).1 = Outcome.ret true ↔
        (Dbl.isfinite lower = true ∧ Dbl.isfinite upper = true ∧ Dbl.lt lower upper = true)) ∧
    (∀ a b : ℚ, b ≤ a →
      check_bounds function (Dbl.fin a) (Dbl.fin b) (nonRaising p) s
        = (Outcome.ret false,
            { slot := p function "lower parameter is %1%, but must be less than upper!" (Dbl.fin a),
              calls := s.calls ++
                [⟨function, "lower parameter is %1%, but must be less than upper!",
                  Dbl.fin a⟩] })) ∧
    check_bounds function (Dbl.fin 5) (Dbl.fin 3) (nonRaising p) s
      = (Outcome.ret false,
          { slot := p function "lower parameter is %1%, but must be less than upper!" (Dbl.fin 5),
            calls := s.calls ++
              [⟨function, "lower parameter is %1%, but must be less than upper!",
                Dbl.fin 5⟩] }) := by
  have hord : ∀ a b : ℚ, b ≤ a →
      check_bounds function (Dbl.fin a) (Dbl.fin b) (nonRaising p) s
        = (Outcome.ret false,
            { slot := p function "lower parameter is %1%, but must be less than upper!" (Dbl.fin a),
              calls := s.calls ++
                [⟨function, "lower parameter is %1%, but must be less than upper!",
                  Dbl.fin a⟩] }) := by
    intro a b hab
    rw [check_bounds_unfold]
    simp [Dbl.isfinite, Dbl.ge, Dbl.le, hab, domain_fail_nonRaising]
  have hiff : (check_bounds function lower upper pol s).1 = Outcome.ret true ↔
      ∃ a b : ℚ, lower = Dbl.fin a ∧ upper = Dbl.fin b ∧ a < b := by
    rw [check_bounds_unfold]
    cases lower with
    | fin a =>
      cases upper with
      | fin b =>
        by_cases hab : b ≤ a
        · have hn : ¬ a < b := not_lt.mpr hab
          simp [Dbl.isfinite, Dbl.ge, Dbl.le, hab, hn, domain_fail_ne_true]
        · have hlt : a < b := not_le.mp hab
          simp [Dbl.isfinite, Dbl.ge, Dbl.le, hab, hlt]
      | _ => simp [Dbl.isfinite, domain_fail_ne_true]
    | _ => simp [Dbl.isfinite, domain_fail_ne_true]
  refine ⟨hiff, ?_, hord, hord 5 3 (by norm_num)⟩
  rw [hiff]
  cases lower <;> cases upper <;> simp [Dbl.isfinite, Dbl.lt]

theorem check_bounds_strict_order_witness :
    (3 : ℚ) ≤ 5 ∧
      check_bounds "uniform_log" (Dbl.fin 5) (Dbl.fin 3) (nonRaising (fun _ _ _ => Dbl.nan))
          ⟨Dbl.fin 1, []⟩
        = (Outcome.ret false,
            { slot := Dbl.nan,
              calls := [⟨"uniform_log", "lower parameter is %1%, but must be less than upper!",
                Dbl.fin 5⟩] }) :=
  ⟨by norm_num,
    (check_bounds_strict_order "uniform_log" (Dbl.fin 5) (Dbl.fin 3) raising
      (fun _ _ _ => Dbl.nan) ⟨Dbl.fin 1, []⟩).2.2.1 5 3 (by norm_num)⟩

/-- C9. For all `unsigned int` values `i` and `j`, under every policy `check_size_match` returns
`true` if and only if `i = j`. When `i ≠ j`, under a non-raising policy it returns `false` after
one invocation whose message template is `i and j must be same.  Found i=%1%, j=` followed by the
decimal rendering of `j` (which therefore ends the template) and whose offending value is `i`.
`(3, 3)` gives `true`; `(3, 4)` gives `false` with the template ending in `j=4`. -/
theorem check_size_match_spec (function : String) (i j : Nat) (pol : Policy)
    (p : String → String → Dbl → Dbl) (s : St) :
    ((check_size_match function i j pol s).1 = Outcome.ret true ↔ i = j) ∧
    (i ≠ j →
      check_size_match function i j (nonRaising p) s
        = (Outcome.ret false,
            { slot := p function ("i and j must be same.  Found i=%1%, j=" ++ toString j)
                (Dbl.ofNat i),
              calls := s.calls ++
                [⟨function, "i and j must be same.  Found i=%1%, j=" ++ toString j,
                  Dbl.ofNat i⟩] })) ∧
    (toString j).data <:+ ("i and j must be same.  Found i=%1%, j=" ++ toString j).data ∧
    check_size_match function 3 3 pol s = (Outcome.ret true, s) ∧
    check_size_match function 3 4 (nonRaising p) s
      = (Outcome.ret false,
          { slot := p function "i and j must be same.  Found i=%1%, j=4" (Dbl.ofNat 3),
            calls := s.calls ++
              [⟨function, "i and j must be same.  Found i=%1%, j=4", Dbl.ofNat 3⟩] }) := by
  have hne : ∀ a b : Nat, a ≠ b →
      check_size_match function a b (nonRaising p) s
        = (Outcome.ret false,
            { slot := p function ("i and j must be same.  Found i=%1%, j=" ++ toString b)
                (Dbl.ofNat a),
              calls := s.calls ++
                [⟨function, "i and j must be same.  Found i=%1%, j=" ++ toString b,
                  Dbl.ofNat a⟩] }) := by
    intro a b hab
    unfold check_size_match
    rw [if_pos hab, domain_fail_nonRaising]
  refine ⟨?_, hne i j, ?_, ?_, hne 3 4 (by decide)⟩
  · unfold check_size_match
    by_cases hij : i = j
    · simp [hij]
    · rw [if_pos hij]
      constructor
      · intro h; exact absurd h (domain_fail_ne_true _ _ _ _ _)
      · intro h; exact absurd h hij
  · rw [String.data_append]
    exact List.suffix_append _ _
  · unfold check_size_match
    simp

theorem check_size_match_spec_witness :
    (3 : Nat) ≠ 4 ∧
      check_size_match "multi_normal_log" 3 4 (nonRaising (fun _ _ _ => Dbl.nan)) ⟨Dbl.fin 1, []⟩
        = (Outcome.ret false,
            { slot := Dbl.nan,
              calls := [⟨"multi_normal_log", "i and j must be same.  Found i=%1%, j=4",
                Dbl.ofNat 3⟩] }) :=
  ⟨by decide,
    (check_size_match_spec "multi_normal_log" 3 4 raising (fun _ _ _ => Dbl.nan)
      ⟨Dbl.fin 1, []⟩).2.1 (by decide)⟩

/-- On a container that has a first element, `check_simplex` and `check_cov_matrix` under a
non-raising policy return exactly the boolean of the structural validator. -/
theorem structural_checks_follow_validator (cov_matrix_validate : EigenMatrix → Bool)
    (simplex_validate : List Dbl → Bool) (render : EigenMatrix → String)
    (function name : String) (p : String → String → Dbl → Dbl) (s : St)
    (v : Dbl) (theta : List Dbl) (row : List Dbl) (rows : List (List Dbl)) :
    (check_simplex simplex_validate function (v :: theta) name (nonRaising p) s).1
      = Outcome.ret (simplex_validate (v :: theta)) ∧
    (check_cov_matrix cov_matrix_validate render function ((v :: row) :: rows)
        (nonRaising p) s).1
      = Outcome.ret (cov_matrix_validate ((v :: row) :: rows)) := by
  constructor
  · unfold check_simplex
    cases simplex_validate (v :: theta) <;> simp [coeff0, domain_fail_nonRaising]
  · unfold check_cov_matrix
    cases cov_matrix_validate ((v :: row) :: rows) <;>
      simp [EigenMatrix.coeff00, domain_fail_nonRaising]

/-- C10. With a validator that answers `false` on the empty vector, respectively on the 0x0
matrix, `check_simplex` and `check_cov_matrix` do not return `false`: the failing branch reads
`theta(0)`, respectively `Sigma(0,0)`, which does not exist, so the call has undefined behaviour
and returns nothing, under a non-raising policy as well. -/
theorem structural_checks_fault_on_empty (render : EigenMatrix → String)
    (p : String → String → Dbl → Dbl) (s : St) :
    check_simplex (fun _ => false) "f" [] "theta" (nonRaising p) s = (Outcome.fault, s) ∧
    check_cov_matrix (fun _ => false) render "f" [] (nonRaising p) s = (Outcome.fault, s) := by
  constructor
  · simp [check_simplex, coeff0]
  · simp [check_cov_matrix, EigenMatrix.coeff00]

/-- Whatever the policy does, a failing branch logs exactly one more invocation. -/
theorem domain_fail_calls (pol : Policy) (function msg : String) (val : Dbl) (s : St) :
    (domain_fail pol function msg val s).2.calls = s.calls ++ [⟨function, msg, val⟩] := by
  unfold domain_fail
  cases pol function msg val <;> rfl

/-- Under the raising policy a failing branch ends with the domain error that carries the
function name, the message template and the offending value; the slot keeps its content. -/
theorem domain_fail_raising (function msg : String) (val : Dbl) (s : St) :
    domain_fail raising function msg val s
      = (Outcome.raised ⟨function, msg, val⟩,
          { slot := s.slot, calls := s.calls ++ [⟨function, msg, val⟩] }) := by
  simp [domain_fail, raising]

/-- C11. For every `unsigned int` value `x`, the maximum `2^32 - 1` included, every policy and
every initial state, the `unsigned int` overload of `check_nonnegative` returns `true` and the
state afterwards is the state before: the policy is not invoked and the slot is untouched. -/
theorem check_nonnegative_unsigned_always_true (function name : String) (x : Nat) (pol : Policy)
    (s : St) :
    check_nonnegative_unsigned function x name pol s = (Outcome.ret true, s) ∧
    check_nonnegative_unsigned function (2 ^ 32 - 1) name pol s = (Outcome.ret true, s) :=
  ⟨rfl, rfl⟩

/-- C12. Generic `check_nonnegative` on real-typed `x`: under every policy it returns `true` if
and only if `x` is finite and `x >= 0` (zero accepted; NaN, both infinities and every negative
value rejected); on rejection a non-raising policy `p` is invoked once with the template
`name ++ " is %1%, but must be finite and >= 0!"` and `x`, and the check returns `false`. -/
theorem check_nonnegative_spec (function name : String) (x : Dbl) (pol : Policy)
    (p : String → String → Dbl → Dbl) (s : St) :
    ((check_nonnegative function x name pol s).1 = Outcome.ret true ↔
        ∃ q : ℚ, x = Dbl.fin q ∧ 0 ≤ q) ∧
    ((¬ ∃ q : ℚ, x = Dbl.fin q ∧ 0 ≤ q) →
      check_nonnegative function x name (nonRaising p) s
        = (Outcome.ret false,
            { slot := p function (name ++ " is %1%, but must be finite and >= 0!") x,
              calls := s.calls ++
                [⟨function, name ++ " is %1%, but must be finite and >= 0!", x⟩] })) ∧
    check_nonnegative function (Dbl.fin 0) name pol s = (Outcome.ret true, s) ∧
    (check_nonnegative function Dbl.nan name pol s).1 ≠ Outcome.ret true ∧
    (check_nonnegative function Dbl.pinf name pol s).1 ≠ Outcome.ret true ∧
    (check_nonnegative function Dbl.ninf name pol s).1 ≠ Outcome.ret true ∧
    (∀ q : ℚ, q < 0 → (check_nonnegative function (Dbl.fin q) name pol s).1
        ≠ Outcome.ret true) := by
  have hiff : ∀ x : Dbl, ((check_nonnegative function x name pol s).1 = Outcome.ret true ↔
      ∃ q : ℚ, x = Dbl.fin q ∧ 0 ≤ q) := by
    intro x
    unfold check_nonnegative
    rw [guard_true_iff]
    cases x <;> simp [Dbl.isfinite, Dbl.ge, Dbl.le, Dbl.ofNat]
  refine ⟨hiff x, ?_, ?_, ?_, ?_, ?_, ?_⟩
  · intro hx
    have hc : (!Dbl.isfinite x || !Dbl.ge x (Dbl.ofNat 0)) = true := by
      cases x with
      | fin q =>
        have hq : ¬ 0 ≤ q := fun h => hx ⟨q, rfl, h⟩
        simp [Dbl.isfinite, Dbl.ge, Dbl.le, Dbl.ofNat, not_le.mp hq]
      | _ => simp [Dbl.isfinite]
    unfold check_nonnegative
    rw [if_pos hc, domain_fail_nonRaising]
  · simp [check_nonnegative, Dbl.isfinite, Dbl.ge, Dbl.le, Dbl.ofNat]
  · rw [Ne, hiff]; simp
  · rw [Ne, hiff]; simp
  · rw [Ne, hiff]; simp
  · intro q hq
    rw [Ne, hiff]
    simp [hq]

theorem check_nonnegative_spec_witness :
    (¬ ∃ q : ℚ, Dbl.fin (-1) = Dbl.fin q ∧ 0 ≤ q) ∧
      check_nonnegative "poisson_log" (Dbl.fin (-1)) "n" (nonRaising (fun _ _ _ => Dbl.nan))
          ⟨Dbl.fin 1, []⟩
        = (Outcome.ret false,
            { slot := Dbl.nan,
              calls := [⟨"poisson_log", "n is %1%, but must be finite and >= 0!",
                Dbl.fin (-1)⟩] }) :=
  have h : ¬ ∃ q : ℚ, Dbl.fin (-1) = Dbl.fin q ∧ 0 ≤ q := by
    rintro ⟨q, hq, h0⟩
    injection hq with hq
    rw [← hq] at h0
    norm_num at h0
  ⟨h, (check_nonnegative_spec "poisson_log" "n" (Dbl.fin (-1)) raising (fun _ _ _ => Dbl.nan)
      ⟨Dbl.fin 1, []⟩).2.1 h⟩

/-- C13. `check_greater` on real-typed `x` and `low`: under every policy it returns `true` if and
only if `x` is finite and `x > low` strictly, so `x == low` is rejected and every `x` is rejected
when `low` is NaN; on rejection a non-raising policy `p` is invoked once with the template
`name ++ " is %1%, but must be finite and greater than " ++ render low` (the bound rendered into
the text) and `x` as offending value, and the check returns `false`. -/
theorem check_greater_spec (render : Dbl → String) (function name : String) (x low : Dbl)
    (pol : Policy) (p : String → String → Dbl → Dbl) (s : St) :
    ((check_greater render function x low name pol s).1 = Outcome.ret true ↔
        (Dbl.isfinite x = true ∧ Dbl.gt x low = true)) ∧
    (∀ l : ℚ, ((check_greater render function x (Dbl.fin l) name pol s).1 = Outcome.ret true ↔
        ∃ q : ℚ, x = Dbl.fin q ∧ l < q)) ∧
    (check_greater render function x x name pol s).1 ≠ Outcome.ret true ∧
    (check_greater render function x Dbl.nan name pol s).1 ≠ Outcome.ret true ∧
    (¬ (Dbl.isfinite x = true ∧ Dbl.gt x low = true) →
      check_greater render function x low name (nonRaising p) s
        = (Outcome.ret false,
            { slot := p function
                (name ++ " is %1%, but must be finite and greater than " ++ render low) x,
              calls := s.calls ++
                [⟨function, name ++ " is %1%, but must be finite and greater than " ++ render low,
                  x⟩] })) := by
  have hiff : ∀ x low : Dbl,
      ((check_greater render function x low name pol s).1 = Outcome.ret true ↔
        (Dbl.isfinite x = true ∧ Dbl.gt x low = true)) := by
    intro x low
    unfold check_greater
    rw [guard_true_iff]
    generalize Dbl.isfinite x = a
    generalize Dbl.gt x low = b
    cases a <;> cases b <;> simp
  refine ⟨hiff x low, ?_, ?_, ?_, ?_⟩
  · intro l
    rw [hiff]
    cases x <;> simp [Dbl.isfinite, Dbl.gt, Dbl.lt]
  · rw [Ne, hiff]
    cases x <;> simp [Dbl.isfinite, Dbl.gt, Dbl.lt]
  · rw [Ne, hiff]
    cases x <;> simp [Dbl.isfinite, Dbl.gt, Dbl.lt]
  · intro hx
    have hc : (!Dbl.isfinite x || !Dbl.gt x low) = true := by
      revert hx
      generalize Dbl.isfinite x = a
      generalize Dbl.gt x low = b
      cases a <;> cases b <;> simp
    unfold check_greater
    rw [if_pos hc, domain_fail_nonRaising]

theorem check_greater_spec_witness :
    (¬ (Dbl.isfinite (Dbl.fin 2) = true ∧ Dbl.gt (Dbl.fin 2) (Dbl.fin 2) = true)) ∧
      check_greater (fun _ => "2") "pareto_log" (Dbl.fin 2) (Dbl.fin 2) "y"
          (nonRaising (fun _ _ _ => Dbl.nan)) ⟨Dbl.fin 1, []⟩
        = (Outcome.ret false,
            { slot := Dbl.nan,
              calls := [⟨"pareto_log", "y is %1%, but must be finite and greater than 2",
                Dbl.fin 2⟩] }) :=
  have h : ¬ (Dbl.isfinite (Dbl.fin 2) = true ∧ Dbl.gt (Dbl.fin 2) (Dbl.fin 2) = true) := by
    simp [Dbl.gt, Dbl.lt]
  ⟨h, (check_greater_spec (fun _ => "2") "pareto_log" "y" (Dbl.fin 2) (Dbl.fin 2) raising
      (fun _ _ _ => Dbl.nan) ⟨Dbl.fin 1, []⟩).2.2.2.2 h⟩

/-- The claimed texts without a blank before `!` are not what a failing `check_scale` or
`check_inv_scale` hands to the policy. -/
theorem check_scale_message_counterexample :
    (check_scale "f" (Dbl.fin 0) (nonRaising (fun _ _ _ => Dbl.nan)) ⟨Dbl.fin 1, []⟩).2.calls
        ≠ [⟨"f", "Scale parameter is %1%, but must be > 0!", Dbl.fin 0⟩] ∧
    (check_inv_scale "f" (Dbl.fin 0) (nonRaising (fun _ _ _ => Dbl.nan)) ⟨Dbl.fin 1, []⟩).2.calls
        ≠ [⟨"f", "Inverse scale parameter is %1%, but must be > 0!", Dbl.fin 0⟩] := by
  constructor
  · simp [check_scale, Dbl.gt, Dbl.lt, Dbl.ofNat, Dbl.isfinite, domain_fail_nonRaising]
  · simp [check_inv_scale, Dbl.gt, Dbl.lt, Dbl.ofNat, Dbl.isfinite, domain_fail_nonRaising]

/-- C14 (amended). When `x` is not a finite value `> 0`, under a non-raising policy `p`
`check_scale` passes the policy exactly the template `Scale parameter is %1%, but must be > 0 !`
and `check_inv_scale` exactly `Inverse scale parameter is %1%, but must be > 0 !`, each with one
blank between `0` and `!`, with `x` as offending value, and returns `false`. -/
theorem check_scale_message (function : String) (x : Dbl) (p : String → String → Dbl → Dbl)
    (s : St) (hx : ¬ ∃ q : ℚ, x = Dbl.fin q ∧ 0 < q) :
    check_scale function x (nonRaising p) s
      = (Outcome.ret false,
          { slot := p function "Scale parameter is %1%, but must be > 0 !" x,
            calls := s.calls ++ [⟨function, "Scale parameter is %1%, but must be > 0 !", x⟩] }) ∧
    check_inv_scale function x (nonRaising p) s
      = (Outcome.ret false,
          { slot := p function "Inverse scale parameter is %1%, but must be > 0 !" x,
            calls := s.calls ++
              [⟨function, "Inverse scale parameter is %1%, but must be > 0 !", x⟩] }) := by
  have hc : (!Dbl.gt x (Dbl.ofNat 0) || !Dbl.isfinite x) = true := by
    cases x with
    | fin q =>
      have hq : ¬ 0 < q := fun h => hx ⟨q, rfl, h⟩
      simp [Dbl.isfinite, Dbl.gt, Dbl.lt, Dbl.ofNat, not_lt.mp hq]
    | _ => simp [Dbl.isfinite]
  constructor
  · unfold check_scale
    rw [if_pos hc, domain_fail_nonRaising]
  · unfold check_inv_scale
    rw [if_pos hc, domain_fail_nonRaising]

theorem check_scale_message_witness :
    (¬ ∃ q : ℚ, Dbl.pinf = Dbl.fin q ∧ 0 < q) ∧
      check_scale "normal_log" Dbl.pinf (nonRaising (fun _ _ _ => Dbl.nan)) ⟨Dbl.fin 1, []⟩
        = (Outcome.ret false,
            { slot := Dbl.nan,
              calls := [⟨"normal_log", "Scale parameter is %1%, but must be > 0 !",
                Dbl.pinf⟩] }) :=
  have h : ¬ ∃ q : ℚ, Dbl.pinf = Dbl.fin q ∧ 0 < q := by
    rintro ⟨q, hq, _⟩
    cases hq
  ⟨h, (check_scale_message "normal_log" Dbl.pinf (fun _ _ _ => Dbl.nan) ⟨Dbl.fin 1, []⟩ h).1⟩

/-- A guarded failing branch keeps the raising-policy contract. -/
theorem raisingContract_guard (c : Bool) (function msg : String) (val : Dbl) (s : St) :
    RaisingContract function s
      (if c = true then domain_fail raising function msg val s else (Outcome.ret true, s)) := by
  cases c
  · left
    simp
  · right
    simp only [if_true, domain_fail_raising]
    exact ⟨msg, val, rfl⟩

/-- A loop whose failing branch keeps the raising-policy contract keeps it too. -/
theorem raisingContract_scan (function : String) (y : List Dbl) (bad : Dbl → Bool)
    (onFail : Nat → Dbl → St → Outcome × St) (s : St)
    (h : ∀ i v, RaisingContract function s (onFail i v s)) :
    RaisingContract function s (scan y bad onFail 0 s) := by
  rcases scan_cases y bad onFail s (y.length - 0) 0 rfl with
    ⟨h1, _⟩ | ⟨k, hk, _, _, _, hres⟩
  · left
    exact h1
  · rw [hres]
    exact h k _

/-- Under the raising policy every check, apart from the `std::vector` overload of
`check_not_nan` and the two structural checks on a container without first element, either
returns `true` with the state unchanged or ends with a domain error that carries the function
name, a message template and an offending value, the slot keeping its content; a violated
`check_finite` raises with its own template and `y`, and `check_bounds` with non-finite `lower`
raises the error of its first sub-check. -/
theorem raising_policy_contract (function name : String)
    (s : St) (x low high : Dbl) (y : List Dbl) (u i j : Nat) (nlow nhigh : Num)
    (render : Dbl → String) (renderNum : Num → String)
    (cov_matrix_validate : EigenMatrix → Bool) (renderMatrix : EigenMatrix → String)
    (simplex_validate : List Dbl → Bool) (row : List Dbl) (rows : List (List Dbl)) :
    RaisingContract function s (check_not_nan function x name raising s) ∧
    RaisingContract function s (check_not_nan_eigen function y name raising s) ∧
    RaisingContract function s (check_finite function x name raising s) ∧
    RaisingContract function s (check_finite_vector function y name raising s) ∧
    RaisingContract function s (check_finite_eigen function y name raising s) ∧
    RaisingContract function s (check_greater render function x low name raising s) ∧
    RaisingContract function s (check_bounded render function x low high name raising s) ∧
    RaisingContract function s
      (check_bounded_unsigned renderNum function u nlow nhigh name raising s) ∧
    RaisingContract function s (check_scale function x raising s) ∧
    RaisingContract function s (check_inv_scale function x raising s) ∧
    RaisingContract function s (check_nonnegative function x name raising s) ∧
    RaisingContract function s (check_nonnegative_unsigned function u name raising s) ∧
    RaisingContract function s (check_positive function x name raising s) ∧
    RaisingContract function s (check_positive_vector function y name raising s) ∧
    RaisingContract function s (check_location function x raising s) ∧
    RaisingContract function s (check_lower_bound function x raising s) ∧
    RaisingContract function s (check_upper_bound function x raising s) ∧
    RaisingContract function s (check_bounds function low high raising s) ∧
    RaisingContract function s (check_size_match function i j raising s) ∧
    RaisingContract function s
      (check_cov_matrix cov_matrix_validate renderMatrix function ((x :: row) :: rows)
        raising s) ∧
    RaisingContract function s (check_simplex simplex_validate function (x :: y) name raising s) ∧
    (Dbl.isfinite x = false →
      check_finite function x name raising s
        = (Outcome.raised ⟨function, name ++ " is %1%, but must be finite!", x⟩,
            { slot := s.slot,
              calls := s.calls ++ [⟨function, name ++ " is %1%, but must be finite!", x⟩] })) ∧
    (Dbl.isfinite low = false →
      check_bounds function low high raising s
        = (Outcome.raised ⟨function, "Lower bound is %1%, but must be finite!", low⟩,
            { slot := s.slot,
              calls := s.calls ++
                [⟨function, "Lower bound is %1%, but must be finite!", low⟩] })) := by
  refine ⟨?_, ?_, ?_, ?_, ?_, ?_, ?_, ?_, ?_, ?_, ?_, ?_, ?_, ?_, ?_, ?_, ?_, ?_, ?_, ?_, ?_,
    ?_, ?_⟩
  · exact raisingContract_guard _ function _ x s
  · exact raisingContract_scan function y _ _ s
      (fun k v => raisingContract_guard true function _ v s)
  · exact raisingContract_guard _ function _ x s
  · exact raisingContract_scan function y _ _ s
      (fun k v => raisingContract_guard true function _ v s)
  · exact raisingContract_scan function y _ _ s
      (fun k v => raisingContract_guard true function _ v s)
  · exact raisingContract_guard _ function _ x s
  · exact raisingContract_guard _ function _ x s
  · exact raisingContract_guard _ function _ _ s
  · exact raisingContract_guard _ function _ x s
  · exact raisingContract_guard _ function _ x s
  · exact raisingContract_guard _ function _ x s
  · left
    rfl
  · exact raisingContract_guard _ function _ x s
  · exact raisingContract_scan function y _ _ s
      (fun k v => raisingContract_guard true function _ v s)
  · exact raisingContract_guard _ function _ x s
  · exact raisingContract_guard _ function _ x s
  · exact raisingContract_guard _ function _ x s
  · rw [check_bounds_unfold]
    cases Dbl.isfinite low
    · exact raisingContract_guard true function _ low s
    · cases Dbl.isfinite high
      · exact raisingContract_guard true function _ high s
      · exact raisingContract_guard _ function _ low s
  · unfold check_size_match
    by_cases hij : i = j
    · left
      simp [hij]
    · rw [if_pos hij]
      exact raisingContract_guard true function _ _ s
  · unfold check_cov_matrix
    cases cov_matrix_validate ((x :: row) :: rows)
    · exact raisingContract_guard true function _ _ s
    · left
      simp
  · unfold check_simplex
    cases simplex_validate (x :: y)
    · exact raisingContract_guard true function _ _ s
    · left
      simp
  · intro hx
    unfold check_finite
    rw [hx]
    simp only [Bool.not_false, if_true, domain_fail_raising]
  · intro hl
    rw [check_bounds_unfold, hl]
    simp only [Bool.not_false, if_true, domain_fail_raising]

/-- C15. Under the raising policy three violated checks end without a domain error:
`check_simplex` on the empty vector and `check_cov_matrix` on the 0x0 matrix, each with a
validator that answers `false`, read an element that does not exist before the policy is
reached, and `check_not_nan` on the `std::vector` `[NaN]` hands the policy a message whose buffer
is destroyed. None of them propagates a domain error carrying the check's message template. -/
theorem raising_policy_fault_paths (render : EigenMatrix → String) (stale : String) (s : St) :
    check_simplex (fun _ => false) "f" [] "theta" raising s = (Outcome.fault, s) ∧
    check_cov_matrix (fun _ => false) render "f" [] raising s = (Outcome.fault, s) ∧
    check_not_nan_vector stale "f" [Dbl.nan] "y" raising s = (Outcome.fault, s) := by
  refine ⟨?_, ?_, ?_⟩
  · simp [check_simplex, coeff0]
  · simp [check_cov_matrix, EigenMatrix.coeff00]
  · unfold check_not_nan_vector
    rw [scan_first_bad [Dbl.nan] Dbl.isnan _ s 0 (by decide) rfl (fun j hj => by omega),
      dangling_fail_raising]

/-- C16. Order of the sub-checks of `check_bounds`, under every policy: when `lower` is not
finite, whatever `upper` is, the policy is invoked exactly once, with the template
`Lower bound is %1%, but must be finite!` and `lower`; when `lower` is finite and `upper` is not,
it is invoked exactly once with `Upper bound is %1%, but must be finite!` and `upper`; and a call
that invokes the policy with the ordering template has both bounds finite. -/
theorem check_bounds_subcheck_order (function : String) (lower upper : Dbl) (pol : Policy)
    (s : St) :
    (Dbl.isfinite lower = false →
      (check_bounds function lower upper pol s).2.calls
        = s.calls ++ [⟨function, "Lower bound is %1%, but must be finite!", lower⟩]) ∧
    (Dbl.isfinite lower = true → Dbl.isfinite upper = false →
      (check_bounds function lower upper pol s).2.calls
        = s.calls ++ [⟨function, "Upper bound is %1%, but must be finite!", upper⟩]) ∧
    ((∃ c ∈ (check_bounds function lower upper pol s).2.calls,
        c.message = "lower parameter is %1%, but must be less than upper!" ∧ c ∉ s.calls) →
      Dbl.isfinite lower = true ∧ Dbl.isfinite upper = true) := by
  refine ⟨?_, ?_, ?_⟩
  · intro hl
    rw [check_bounds_unfold, hl]
    simp only [Bool.not_false, if_true, domain_fail_calls]
  · intro hl hu
    rw [check_bounds_unfold, hl, hu]
    simp only [Bool.not_true, Bool.not_false, Bool.false_eq_true, if_true, if_false,
      domain_fail_calls]
  · rintro ⟨c, hc, hmsg, hnew⟩
    rw [check_bounds_unfold] at hc
    cases hl : Dbl.isfinite lower
    · rw [hl] at hc
      simp only [Bool.not_false, if_true, domain_fail_calls, List.mem_append,
        List.mem_singleton] at hc
      rcases hc with hc | hc
      · exact absurd hc hnew
      · rw [hc] at hmsg
        simp at hmsg
    · cases hu : Dbl.isfinite upper
      · rw [hl, hu] at hc
        simp only [Bool.not_true, Bool.not_false, Bool.false_eq_true, if_true, if_false,
          domain_fail_calls, List.mem_append, List.mem_singleton] at hc
        rcases hc with hc | hc
        · exact absurd hc hnew
        · rw [hc] at hmsg
          simp at hmsg
      · exact ⟨rfl, rfl⟩

theorem check_bounds_subcheck_order_witness :
    (check_bounds "uniform_log" Dbl.nan Dbl.ninf (nonRaising (fun _ _ _ => Dbl.nan))
        ⟨Dbl.fin 1, []⟩).2.calls
      = [⟨"uniform_log", "Lower bound is %1%, but must be finite!", Dbl.nan⟩] ∧
    (check_bounds "uniform_log" (Dbl.fin 0) Dbl.pinf (nonRaising (fun _ _ _ => Dbl.nan))
        ⟨Dbl.fin 1, []⟩).2.calls
      = [⟨"uniform_log", "Upper bound is %1%, but must be finite!", Dbl.pinf⟩] :=
  ⟨(check_bounds_subcheck_order "uniform_log" Dbl.nan Dbl.ninf
      (nonRaising (fun _ _ _ => Dbl.nan)) ⟨Dbl.fin 1, []⟩).1 rfl,
    (check_bounds_subcheck_order "uniform_log" (Dbl.fin 0) Dbl.pinf
      (nonRaising (fun _ _ _ => Dbl.nan)) ⟨Dbl.fin 1, []⟩).2.1 rfl rfl⟩

/-- An `int` in the range `0 .. 2^31 - 1` keeps its value when converted to `unsigned int`. -/
theorem toUnsigned_of_nonneg (n : Nat) (h : (n : Int) < 2 ^ 31) : toUnsigned (n : Int) = n := by
  unfold toUnsigned
  have h2 : (n : Int) % 2 ^ 32 = (n : Int) :=
    Int.emod_eq_of_lt (Int.natCast_nonneg n) (by omega)
  rw [h2]
  exact Int.toNat_natCast n

/-- For a real bound, or an `int` bound that is not negative, the comparison `low <= x` of the
`unsigned int` overload is the comparison of the mathematical values. -/
theorem le_unsigned_eq (low : Num) (x : Nat)
    (h : ∀ i : Int, low = Num.int i → 0 ≤ i ∧ i < 2 ^ 31) :
    Num.le_unsigned low x = Dbl.le (Num.toDbl low) (Dbl.ofNat x) := by
  cases low with
  | real d => rfl
  | int i =>
    obtain ⟨h0, h1⟩ := h i rfl
    lift i to ℕ using h0
    simp only [Num.le_unsigned, Num.toDbl, Dbl.ofNat, Dbl.le, toUnsigned_of_nonneg i h1]
    simp

/-- For a real bound, or an `int` bound that is not negative, the comparison `x <= high` of the
`unsigned int` overload is the comparison of the mathematical values. -/
theorem unsigned_le_eq (high : Num) (x : Nat)
    (h : ∀ i : Int, high = Num.int i → 0 ≤ i ∧ i < 2 ^ 31) :
    Num.unsigned_le x high = Dbl.le (Dbl.ofNat x) (Num.toDbl high) := by
  cases high with
  | real d => rfl
  | int i =>
    obtain ⟨h0, h1⟩ := h i rfl
    lift i to ℕ using h0
    simp only [Num.unsigned_le, Num.toDbl, Dbl.ofNat, Dbl.le, toUnsigned_of_nonneg i h1]
    simp

/-- With bounds that are real-typed or non-negative `int`s, the `unsigned int` overload of
`check_bounded` returns `true` exactly when the generic overload does on `x` viewed as a real
number. -/
theorem check_bounded_unsigned_agrees (renderNum : Num → String) (render : Dbl → String)
    (function name : String) (x : Nat) (low high : Num) (pol : Policy) (s : St)
    (hlow : ∀ i : Int, low = Num.int i → 0 ≤ i ∧ i < 2 ^ 31)
    (hhigh : ∀ i : Int, high = Num.int i → 0 ≤ i ∧ i < 2 ^ 31) :
    (check_bounded_unsigned renderNum function x low high name pol s).1 = Outcome.ret true ↔
      (check_bounded render function (Dbl.ofNat x) (Num.toDbl low) (Num.toDbl high) name
        pol s).1 = Outcome.ret true := by
  unfold check_bounded_unsigned check_bounded
  rw [guard_true_iff, guard_true_iff, le_unsigned_eq low x hlow, unsigned_le_eq high x hhigh]
  simp [Dbl.ofNat, Dbl.isfinite]

/-- C17. With `x = 5`, `low = -1` and `high = 10`, both bounds of type `int`, the `unsigned int`
overload of `check_bounded` returns `false`: `low <= x` converts `-1` to `4294967295`. The
mathematical values satisfy `-1 ≤ 5 ≤ 10`, and the generic overload on `x` viewed as a real
number returns `true`. -/
theorem check_bounded_unsigned_negative_low (renderNum : Num → String) (render : Dbl → String)
    (p : String → String → Dbl → Dbl) (s : St) :
    toUnsigned (-1) = 4294967295 ∧
    check_bounded_unsigned renderNum "f" 5 (Num.int (-1)) (Num.int 10) "n" (nonRaising p) s
      = (Outcome.ret false,
          { slot := p "f"
              ("n" ++ " is %1%, but must be finite and between " ++ renderNum (Num.int (-1))
                ++ " and " ++ renderNum (Num.int 10)) (Dbl.ofNat 5),
            calls := s.calls ++
              [⟨"f", "n" ++ " is %1%, but must be finite and between "
                  ++ renderNum (Num.int (-1)) ++ " and " ++ renderNum (Num.int 10),
                Dbl.ofNat 5⟩] }) ∧
    check_bounded render "f" (Dbl.ofNat 5) (Num.toDbl (Num.int (-1))) (Num.toDbl (Num.int 10))
        "n" (nonRaising p) s
      = (Outcome.ret true, s) := by
  have hu : toUnsigned (-1) = 4294967295 := by decide
  refine ⟨hu, ?_, ?_⟩
  · have hc : (!(Num.le_unsigned (Num.int (-1)) 5 && Num.unsigned_le 5 (Num.int 10))) = true := by
      simp [Num.le_unsigned, hu]
    unfold check_bounded_unsigned
    rw [if_pos hc, domain_fail_nonRaising]
  · have hc : ¬ ((!Dbl.isfinite (Dbl.ofNat 5)
        || !(Dbl.le (Num.toDbl (Num.int (-1))) (Dbl.ofNat 5)
          && Dbl.le (Dbl.ofNat 5) (Num.toDbl (Num.int 10)))) = true) := by
      simp [Dbl.ofNat, Dbl.isfinite, Dbl.le, Num.toDbl]
      norm_num
    unfold check_bounded
    rw [if_neg hc]

/-- Under a non-raising policy a guarded failing branch returns the negation of its guard. -/
theorem guard_nonRaising_fst (c : Bool) (p : String → String → Dbl → Dbl)
    (function msg : String) (val : Dbl) (s : St) :
    (if c = true then domain_fail (nonRaising p) function msg val s
      else (Outcome.ret true, s)).1 = Outcome.ret (!c) := by
  cases c
  · simp
  · simp [domain_fail_nonRaising]

/-- A failing branch never ends in undefined behaviour. -/
theorem domain_fail_ne_fault (pol : Policy) (function msg : String) (val : Dbl) (s : St) :
    (domain_fail pol function msg val s).1 ≠ Outcome.fault := by
  unfold domain_fail
  cases pol function msg val <;> simp

/-- C18. `check_scale`, `check_inv_scale` and scalar `check_positive` accept exactly the same
values, although the first two test the sign before finiteness: for every `x` they return the
same boolean under a non-raising policy and return `true` for the same `x` under every policy.
Likewise `check_location`, `check_lower_bound` and `check_upper_bound` return the same boolean
as scalar `check_finite`. -/
theorem scale_checks_agree_with_positive (function name : String) (x : Dbl) (pol : Policy)
    (p : String → String → Dbl → Dbl) (s : St) :
    (check_scale function x (nonRaising p) s).1
      = (check_positive function x name (nonRaising p) s).1 ∧
    (check_inv_scale function x (nonRaising p) s).1
      = (check_positive function x name (nonRaising p) s).1 ∧
    (check_location function x (nonRaising p) s).1
      = (check_finite function x name (nonRaising p) s).1 ∧
    (check_lower_bound function x (nonRaising p) s).1
      = (check_finite function x name (nonRaising p) s).1 ∧
    (check_upper_bound function x (nonRaising p) s).1
      = (check_finite function x name (nonRaising p) s).1 ∧
    ((check_scale function x pol s).1 = Outcome.ret true ↔
      (check_positive function x name pol s).1 = Outcome.ret true) ∧
    ((check_inv_scale function x pol s).1 = Outcome.ret true ↔
      (check_positive function x name pol s).1 = Outcome.ret true) ∧
    ((check_location function x pol s).1 = Outcome.ret true ↔
      (check_finite function x name pol s).1 = Outcome.ret true) ∧
    ((check_lower_bound function x pol s).1 = Outcome.ret true ↔
      (check_finite function x name pol s).1 = Outcome.ret true) ∧
    ((check_upper_bound function x pol s).1 = Outcome.ret true ↔
      (check_finite function x name pol s).1 = Outcome.ret true) := by
  have hcomm : (!Dbl.gt x (Dbl.ofNat 0) || !Dbl.isfinite x)
      = (!Dbl.isfinite x || !Dbl.gt x (Dbl.ofNat 0)) := Bool.or_comm _ _
  refine ⟨?_, ?_, ?_, ?_, ?_, ?_, ?_, ?_, ?_, ?_⟩
  · unfold check_scale check_positive
    rw [guard_nonRaising_fst, guard_nonRaising_fst, hcomm]
  · unfold check_inv_scale check_positive
    rw [guard_nonRaising_fst, guard_nonRaising_fst, hcomm]
  · unfold check_location check_finite
    rw [guard_nonRaising_fst, guard_nonRaising_fst]
  · unfold check_lower_bound check_finite
    rw [guard_nonRaising_fst, guard_nonRaising_fst]
  · unfold check_upper_bound check_finite
    rw [guard_nonRaising_fst, guard_nonRaising_fst]
  · unfold check_scale check_positive
    rw [guard_true_iff, guard_true_iff, hcomm]
  · unfold check_inv_scale check_positive
    rw [guard_true_iff, guard_true_iff, hcomm]
  · unfold check_location check_finite
    rw [guard_true_iff, guard_true_iff]
  · unfold check_lower_bound check_finite
    rw [guard_true_iff, guard_true_iff]
  · unfold check_upper_bound check_finite
    rw [guard_true_iff, guard_true_iff]

/-- C19. The scalar checks form a chain of weaker and weaker conditions, under every policy:
`check_positive` true implies `check_nonnegative` true, which implies `check_finite` true, which
implies `check_not_nan` true, and `check_bounded` true implies `check_finite` true. The sequence
forms of `check_positive`, `check_finite` and `check_not_nan` are chained the same way. No
converse holds: `0` is nonnegative and not positive, `-1` is finite and not nonnegative,
`+infinity` is not NaN and not finite, and `0` is finite and not within `[1, 2]`. -/
theorem checks_chain (render : Dbl → String) (stale function name : String) (x low high : Dbl)
    (y : List Dbl) (pol : Policy) (s : St) :
    ((check_positive function x name pol s).1 = Outcome.ret true →
      (check_nonnegative function x name pol s).1 = Outcome.ret true) ∧
    ((check_nonnegative function x name pol s).1 = Outcome.ret true →
      (check_finite function x name pol s).1 = Outcome.ret true) ∧
    ((check_finite function x name pol s).1 = Outcome.ret true →
      (check_not_nan function x name pol s).1 = Outcome.ret true) ∧
    ((check_bounded render function x low high name pol s).1 = Outcome.ret true →
      (check_finite function x name pol s).1 = Outcome.ret true) ∧
    ((check_positive_vector function y name pol s).1 = Outcome.ret true →
      (check_finite_vector function y name pol s).1 = Outcome.ret true ∧
      (check_finite_eigen function y name pol s).1 = Outcome.ret true) ∧
    ((check_finite_vector function y name pol s).1 = Outcome.ret true →
      (check_not_nan_vector stale function y name pol s).1 = Outcome.ret true) ∧
    ((check_finite_eigen function y name pol s).1 = Outcome.ret true →
      (check_not_nan_eigen function y name pol s).1 = Outcome.ret true) ∧
    ((check_nonnegative function (Dbl.fin 0) name pol s).1 = Outcome.ret true ∧
      (check_positive function (Dbl.fin 0) name pol s).1 ≠ Outcome.ret true) ∧
    ((check_finite function (Dbl.fin (-1)) name pol s).1 = Outcome.ret true ∧
      (check_nonnegative function (Dbl.fin (-1)) name pol s).1 ≠ Outcome.ret true) ∧
    ((check_not_nan function Dbl.pinf name pol s).1 = Outcome.ret true ∧
      (check_finite function Dbl.pinf name pol s).1 ≠ Outcome.ret true) ∧
    ((check_finite function (Dbl.fin 0) name pol s).1 = Outcome.ret true ∧
      (check_bounded render function (Dbl.fin 0) (Dbl.fin 1) (Dbl.fin 2) name pol s).1
        ≠ Outcome.ret true) := by
  have hfault : ∀ (i : Nat) (v : Dbl) (s1 : St),
      ((fun (_ : Nat) (v2 : Dbl) (s2 : St) => dangling_fail pol function stale v2 s2) i v s1).1
        ≠ Outcome.ret true :=
    fun _ _ _ => dangling_fail_ne_true _ _ _ _ _
  refine ⟨?_, ?_, ?_, ?_, ?_, ?_, ?_, ⟨?_, ?_⟩, ⟨?_, ?_⟩, ⟨?_, ?_⟩, ⟨?_, ?_⟩⟩
  · unfold check_positive check_nonnegative
    rw [guard_true_iff, guard_true_iff]
    cases x <;> simp [Dbl.isfinite, Dbl.gt, Dbl.ge, Dbl.lt, Dbl.le, Dbl.ofNat]
    intro h
    exact le_of_lt h
  · unfold check_nonnegative check_finite
    rw [guard_true_iff, guard_true_iff]
    cases x <;> simp [Dbl.isfinite]
  · unfold check_finite check_not_nan
    rw [guard_true_iff, guard_true_iff]
    cases x <;> simp [Dbl.isfinite, Dbl.isnan]
  · unfold check_bounded check_finite
    rw [guard_true_iff, guard_true_iff]
    cases x <;> simp [Dbl.isfinite]
  · unfold check_positive_vector check_finite_vector check_finite_eigen
    rw [scan_true_iff y _ _ s (fun i v s1 => domain_fail_ne_true _ _ _ _ _),
      scan_true_iff y _ _ s (fun i v s1 => domain_fail_ne_true _ _ _ _ _)]
    intro h
    have h2 : ∀ v ∈ y, (!Dbl.isfinite v) = false := by
      intro v hv
      have h3 := h v hv
      cases v <;> simp [Dbl.isfinite] at h3 ⊢
    exact ⟨h2, h2⟩
  · unfold check_finite_vector check_not_nan_vector
    rw [scan_true_iff y _ _ s (fun i v s1 => domain_fail_ne_true _ _ _ _ _),
      scan_true_iff y _ _ s hfault]
    intro h v hv
    have h3 := h v hv
    cases v <;> simp [Dbl.isfinite, Dbl.isnan] at h3 ⊢
  · unfold check_finite_eigen check_not_nan_eigen
    rw [scan_true_iff y _ _ s (fun i v s1 => domain_fail_ne_true _ _ _ _ _),
      scan_true_iff y _ _ s (fun i v s1 => domain_fail_ne_true _ _ _ _ _)]
    intro h v hv
    have h3 := h v hv
    cases v <;> simp [Dbl.isfinite, Dbl.isnan] at h3 ⊢
  · unfold check_nonnegative
    rw [guard_true_iff]
    simp [Dbl.isfinite, Dbl.ge, Dbl.le, Dbl.ofNat]
  · unfold check_positive
    rw [Ne, guard_true_iff]
    simp [Dbl.isfinite, Dbl.gt, Dbl.lt, Dbl.ofNat]
  · unfold check_finite
    rw [guard_true_iff]
    simp [Dbl.isfinite]
  · unfold check_nonnegative
    rw [Ne, guard_true_iff]
    simp [Dbl.isfinite, Dbl.ge, Dbl.le, Dbl.ofNat]
  · unfold check_not_nan
    rw [guard_true_iff]
    simp [Dbl.isnan]
  · unfold check_finite
    rw [Ne, guard_true_iff]
    simp [Dbl.isfinite]
  · unfold check_finite
    rw [guard_true_iff]
    simp [Dbl.isfinite]
  · unfold check_bounded
    rw [Ne, guard_true_iff]
    simp [Dbl.isfinite, Dbl.le]

/-- C20. `check_simplex` and `check_cov_matrix` read outside the container exactly when the
validator rejects a container without first element: under every policy the call ends in
undefined behaviour if and only if the validator answers `false` and `theta(0)`, respectively
`Sigma(0,0)`, does not exist. This happens for the empty vector, the 0x0 matrix and a matrix with
one row and no column as soon as the validator rejects them. -/
theorem first_element_read_out_of_range (cov_matrix_validate : EigenMatrix → Bool)
    (simplex_validate : List Dbl → Bool) (render : EigenMatrix → String)
    (function name : String) (theta : List Dbl) (Sigma : EigenMatrix) (pol : Policy) (s : St) :
    ((check_simplex simplex_validate function theta name pol s).1 = Outcome.fault ↔
      (simplex_validate theta = false ∧ theta = [])) ∧
    ((check_cov_matrix cov_matrix_validate render function Sigma pol s).1 = Outcome.fault ↔
      (cov_matrix_validate Sigma = false ∧ EigenMatrix.coeff00 Sigma = none)) ∧
    (check_simplex (fun _ => false) function [] name pol s).1 = Outcome.fault ∧
    (check_cov_matrix (fun _ => false) render function [] pol s).1 = Outcome.fault ∧
    (check_cov_matrix (fun _ => false) render function [[]] pol s).1 = Outcome.fault := by
  refine ⟨?_, ?_, ?_, ?_, ?_⟩
  · unfold check_simplex
    cases hv : simplex_validate theta
    · cases theta with
      | nil => simp [coeff0]
      | cons v t => simp [coeff0, domain_fail_ne_fault]
    · simp
  · unfold check_cov_matrix
    cases hv : cov_matrix_validate Sigma
    · cases hc : EigenMatrix.coeff00 Sigma with
      | none => simp
      | some v => simp [domain_fail_ne_fault]
    · simp
  · simp [check_simplex, coeff0]
  · simp [check_cov_matrix, EigenMatrix.coeff00]
  · simp [check_cov_matrix, EigenMatrix.coeff00]

end Stan
